import Mathlib

/-!
# norte-sul-bot: the print conversation of `src/app.js`

A shallow embedding of the `messages.upsert` handler and of `printDocument`
from `src/app.js`, and theorems about the per-conversation state machine.

Layout: first the JavaScript built-ins the handler calls (strings, `parseInt`,
`path`), then the data model (message, session record, disk, transport), then
the handler itself and sequences of events, then the theorems.
-/

namespace NorteSulBot

/-! ## JavaScript strings -/

/-- White space and line terminators of ECMAScript, the characters which
`String.prototype.trim` removes and which `parseInt` skips at the start. -/
def isWhiteSpace (c : Char) : Bool :=
  let n := c.toNat
  n = 0x09 || n = 0x0A || n = 0x0B || n = 0x0C || n = 0x0D || n = 0x20 || n = 0xA0 ||
  n = 0x1680 || (0x2000 ≤ n && n ≤ 0x200A) || n = 0x2028 || n = 0x2029 || n = 0x202F ||
  n = 0x205F || n = 0x3000 || n = 0xFEFF

/-- Lower-casing of one character as `String.prototype.toLowerCase` does it on
Basic Latin and the Latin-1 Supplement (`A`-`Z`, `À`-`Þ` without `×`). Characters
of other blocks are returned as they are. The handler compares the result only
with the three greetings, with `1` and `2`, and reads digits from it; no
character of another block lower-cases to a string of such characters alone,
so these tests come out the same. -/
def toLowerChar (c : Char) : Char :=
  let n := c.toNat
  if (65 ≤ n ∧ n ≤ 90) ∨ (192 ≤ n ∧ n ≤ 222 ∧ n ≠ 215) then Char.ofNat (n + 32) else c

/-- `s.toLowerCase()`. -/
def toLowerCase (s : String) : String := ⟨s.data.map toLowerChar⟩

/-- Removal of white space at the end of a character list. -/
def trimEnd (cs : List Char) : List Char := (cs.reverse.dropWhile isWhiteSpace).reverse

/-- `s.trim()`. -/
def trim (s : String) : String := ⟨trimEnd (s.data.dropWhile isWhiteSpace)⟩

/-! ## JavaScript numbers, as far as `parseInt(_, 10)` produces them -/

/-- A Number value that `parseInt` can return: `NaN`, an integer-valued finite
double (zero stands for both `+0` and `-0`), or an infinity. -/
inductive JSNumber where
  | NaN
  | finite (v : Int)
  | infinity (negative : Bool)
  deriving DecidableEq, Repr

/-- Number of binary digits of `n`, computed with fuel `fuel`. -/
def bitLengthAux : Nat → Nat → Nat
  | 0, _ => 0
  | fuel + 1, n => if n = 0 then 0 else bitLengthAux fuel (n / 2) + 1

/-- Number of binary digits of `n` (`0` for `0`). -/
def bitLength (n : Nat) : Nat := bitLengthAux n n

/-- The natural number nearest to `n` that a double represents with its 53-bit
significand, ties to the even significand; below `2^53` this is `n`. -/
def roundToDouble (n : Nat) : Nat :=
  if n < 2 ^ 53 then n
  else
    let e := bitLength n - 53
    let q := n / 2 ^ e
    let r := n % 2 ^ e
    let half := 2 ^ (e - 1)
    if r > half ∨ (r = half ∧ q % 2 = 1) then (q + 1) * 2 ^ e else q * 2 ^ e

/-- The Number value of the mathematical integer `±mathInt`: rounded to the
nearest double, and an infinity when the rounded value needs more than 1024
binary digits (that is, from `2^1024` on). -/
def toNumber (negative : Bool) (mathInt : Nat) : JSNumber :=
  let r := roundToDouble mathInt
  if 1024 < bitLength r then .infinity negative
  else .finite (if negative then -(r : Int) else (r : Int))

/-- A decimal digit `0`-`9`. -/
def isDecimalDigit (c : Char) : Bool := 48 ≤ c.toNat && c.toNat ≤ 57

/-- The mathematical integer written by a list of decimal digits. -/
def digitsValue (cs : List Char) : Nat := cs.foldl (fun a c => 10 * a + (c.toNat - 48)) 0

/-- `parseInt(s, 10)`: skip leading white space, read an optional sign, take the
longest run of decimal digits that follows and ignore the rest; `NaN` when that
run is empty. -/
def parseInt (s : String) : JSNumber :=
  let S := s.data.dropWhile isWhiteSpace
  let negative := match S with
    | '-' :: _ => true
    | _ => false
  let S1 := match S with
    | '-' :: t => t
    | '+' :: t => t
    | _ => S
  let Z := S1.takeWhile isDecimalDigit
  if Z = [] then .NaN else toNumber negative (digitsValue Z)

/-- `isNaN(x)`. -/
def JSNumber.isNaN : JSNumber → Bool
  | .NaN => true
  | _ => false

/-- `x <= 0`. -/
def JSNumber.leZero : JSNumber → Bool
  | .NaN => false
  | .finite v => decide (v ≤ 0)
  | .infinity negative => negative

/-- Truthiness of a Number: `0` and `NaN` are falsy. -/
def JSNumber.truthy : JSNumber → Bool
  | .NaN => false
  | .finite v => decide (v ≠ 0)
  | .infinity _ => true

/-! ## The `path` module (POSIX flavour) -/

/-- The pieces of a character list between its `/` characters. -/
def splitSlash : List Char → List (List Char)
  | [] => [[]]
  | c :: cs =>
    if c = '/' then [] :: splitSlash cs
    else match splitSlash cs with
      | seg :: rest => (c :: seg) :: rest
      | [] => [[c]]

/-- One step of `normalizeString` of Node's `path`: `stack` holds the segments
kept so far, last one first. Empty segments and `.` are dropped; `..` removes
the last kept segment unless there is none or it is `..` itself, in which case
`..` is kept when `allowAboveRoot`. -/
def normalizeStep (allowAboveRoot : Bool) (stack : List (List Char)) (seg : List Char) :
    List (List Char) :=
  if seg = [] ∨ seg = ['.'] then stack
  else if seg = ['.', '.'] then
    match stack with
    | top :: rest =>
      if top = ['.', '.'] then (if allowAboveRoot then seg :: stack else stack) else rest
    | [] => if allowAboveRoot then [seg] else []
  else seg :: stack

/-- `normalizeString(path, allowAboveRoot, '/')`: the kept segments joined by `/`. -/
def normalizeString (path : List Char) (allowAboveRoot : Bool) : List Char :=
  ['/'].intercalate ((splitSlash path).foldl (normalizeStep allowAboveRoot) []).reverse

/-- `path.posix.normalize(path)`. -/
def normalize (path : List Char) : List Char :=
  if path = [] then ['.']
  else
    let isAbsolute := path.head? = some '/'
    let trailingSeparator := path.getLast? = some '/'
    let res := normalizeString path (!isAbsolute)
    if res = [] then
      (if isAbsolute then ['/'] else if trailingSeparator then ['.', '/'] else ['.'])
    else
      let res := if trailingSeparator then res ++ ['/'] else res
      if isAbsolute then '/' :: res else res

/-- `path.join(a, b)`: the non-empty arguments joined by `/`, then normalized. -/
def pathJoin (a b : String) : String :=
  if a = "" ∧ b = "" then "."
  else if a = "" then ⟨normalize b.data⟩
  else if b = "" then ⟨normalize a.data⟩
  else ⟨normalize (a.data ++ '/' :: b.data)⟩

/-- `path.basename(p)`: trailing `/` are cut, then what follows the last `/`. -/
def basename (p : String) : String :=
  ⟨(((p.data.reverse.dropWhile (· = '/')).takeWhile (· ≠ '/'))).reverse⟩

/-! ## Configuration and data model -/

/-- The value `PRINTER_IP` has in the source; `printDocument` refuses to print
while the constant still has it. -/
def PRINTER_IP_PLACEHOLDER : String := "SEU_IP_DA_IMPRESSORA_AQUI"

/-- `PRINTER_URI`, built from the configured `PRINTER_IP`. -/
def PRINTER_URI (PRINTER_IP : String) : String := "ipp://" ++ PRINTER_IP ++ "/ipp/print"

/-- Directory of the received files. -/
def UPLOADS_DIR : String := "impressoes_recebidas"

/-- Contents of a file or of a downloaded attachment. -/
abbrev Buffer := List Nat

/-- One entry of the object `m.message`, with the properties the handler reads. -/
inductive Field where
  | conversation (text : String)
  | extendedTextMessage (text : Option String)
  | documentMessage (fileName : Option String) (mimetype : Option String)
  | imageMessage (mimetype : Option String)
  | other (key : String)
  deriving DecidableEq, Repr

/-- The property name of an entry, as `Object.keys` lists it. -/
def Field.key : Field → String
  | .conversation _ => "conversation"
  | .extendedTextMessage _ => "extendedTextMessage"
  | .documentMessage _ _ => "documentMessage"
  | .imageMessage _ => "imageMessage"
  | .other key => key

/-- `messageContent.fileName`. -/
def Field.fileName : Field → Option String
  | .documentMessage fileName _ => fileName
  | _ => none

/-- `messageContent.mimetype`. -/
def Field.mimetype : Field → Option String
  | .documentMessage _ mimetype => mimetype
  | .imageMessage mimetype => mimetype
  | _ => none

/-- `m.key`. -/
structure MessageKey where
  remoteJid : String
  fromMe : Bool
  id : String
  deriving DecidableEq, Repr

/-- An incoming message `m`; `message` is absent for events without a body,
otherwise it lists the entries of `m.message` in key order. -/
structure WAMessage where
  key : MessageKey
  message : Option (List Field)
  deriving DecidableEq, Repr

/-- Values of `userState.status`. -/
inductive Status where
  | awaiting_welcome
  | awaiting_file
  | awaiting_color_choice
  | awaiting_copies_number
  deriving DecidableEq, Repr

/-- Values of `userState.colorMode`. -/
inductive ColorMode where
  | mono
  | color
  deriving DecidableEq, Repr

/-- A record of `conversationState`; a property that was never assigned is `none`. -/
structure Session where
  status : Status
  filePath : Option String := none
  fileName : Option String := none
  colorMode : Option ColorMode := none
  copies : Option JSNumber := none
  deriving DecidableEq, Repr

/-- What persists between two runs of the handler: the map `conversationState`
and the regular files on disk with their contents. -/
structure World where
  conversationState : String → Option Session
  disk : String → Option Buffer

/-- The texts the bot sends, one constructor per `sendMessage` call site. -/
inductive Reply where
  /-- Line 142: "Olá! Bem-vindo(a) ao nosso serviço de impressão automática. Por
  favor, envie o documento que você deseja imprimir (PDF, DOCX, JPG, PNG)." -/
  | welcome
  /-- Line 161: "Arquivo "<fileName>" recebido! Como será a impressão? Digite o
  número da opção desejada: 1. Preto e Branco 2. Colorida". -/
  | menu (fileName : String)
  /-- Line 165: "Por favor, envie um arquivo válido (PDF, DOCX, JPG ou PNG)." -/
  | invalidFile
  /-- Line 172: "Opção inválida. Por favor, responda com o número da opção desejada." -/
  | invalidOptionKind
  /-- Line 182: "Opção inválida. Por favor, digite 1 para Preto e Branco ou 2 para
  Colorida." -/
  | invalidOption
  /-- Line 191: "Ok, impressão <colorSelectionText>. E quantas cópias você deseja?" -/
  | copiesPrompt (colorSelectionText : String)
  /-- Line 198: "Por favor, digite um número válido para a quantidade de cópias." -/
  | needNumber
  /-- Line 205: "Por favor, digite um número válido e positivo." -/
  | invalidNumber
  /-- Line 212: "Ok, imprimindo <copies> cópia(s) de "<fileName>" em modo
  <colorText>. Aguarde..." -/
  | printing (copies : JSNumber) (fileName : Option String) (colorText : String)
  /-- Line 220: "Pronto! Seu documento foi enviado para a impressora. Você pode
  retirá-lo no balcão." -/
  | printed
  /-- Line 222: "Ocorreu um erro ao enviar seu documento para a impressora. ..." -/
  | printFailed
  /-- Line 239: "Ocorreu um erro inesperado. Por favor, digite "olá" para recomeçar." -/
  | unexpectedError
  deriving DecidableEq, Repr

/-- One call `sock.sendMessage(jid, { text })`; `delivered` tells whether the
call resolved (`true`) or rejected (`false`). -/
structure Sent where
  jid : String
  reply : Reply
  delivered : Bool
  deriving DecidableEq, Repr

/-- The object `msg` of `printDocument`. -/
structure IppMessage where
  requestingUserName : String
  jobName : String
  documentFormat : String
  copies : JSNumber
  printColorMode : String
  data : Buffer
  deriving DecidableEq, Repr

/-- One call `printer.execute("Print-Job", msg, _)` on `ipp.Printer(printerUri)`. -/
structure PrintCall where
  printerUri : String
  operation : String
  msg : IppMessage
  deriving DecidableEq, Repr

/-- The response object the connector resolves with: `statusCode`, and the group
`job-attributes-tag` with its `job-id` when the printer sent them. -/
structure IppResponse where
  statusCode : String
  jobAttributesTag : Option (Option Nat)
  deriving DecidableEq, Repr

/-- Outcome of `printer.execute`: the callback gets `err`, or a response. -/
inductive ConnectorResult where
  | err
  | res (response : IppResponse)
  deriving DecidableEq, Repr

/-- What the outside answers during one run of the handler. `sendOk k` tells
whether the `k`-th call of `sock.sendMessage` of the run (from `0`) resolves,
`download` is the buffer `downloadMediaMessage` resolves with (`none`: it
rejects), `writeOk` tells whether `fs.writeFileSync` succeeds (otherwise it
throws), `connector` is the outcome of `printer.execute`. -/
structure Env where
  sendOk : Nat → Bool
  download : Option Buffer
  writeOk : Bool
  connector : ConnectorResult

/-- State during one run of the handler: the world, the `sendMessage` calls made
so far and the calls of the printing connector made so far, oldest first. -/
structure Run where
  world : World
  sends : List Sent
  jobs : List PrintCall

/-! ## Effects -/

/-- A computation inside the handler: from the current run state it yields a
value, or `none` when it throws, together with the run state reached. -/
def Handler (α : Type) : Type := Run → Option α × Run

/-- Normal completion with value `a`. -/
def Handler.pure {α : Type} (a : α) : Handler α := fun r => (some a, r)

/-- Sequencing; an exception of the first part skips the second. -/
def Handler.bind {α β : Type} (x : Handler α) (f : α → Handler β) : Handler β := fun r =>
  match x r with
  | (some a, r1) => f a r1
  | (none, r1) => (none, r1)

instance : Monad Handler where
  pure := Handler.pure
  bind := Handler.bind

/-- A thrown exception. -/
def raise {α : Type} : Handler α := fun r => (none, r)

/-- An expression that evaluates to a value, or throws (`none`). -/
def orThrow {α : Type} (o : Option α) : Handler α := fun r => (o, r)

/-- The statement `try { body } catch (error) { handler }`. -/
def tryCatch (body : Handler Unit) (handler : Handler Unit) : Handler Unit := fun r =>
  match body r with
  | (some a, r1) => (some a, r1)
  | (none, r1) => handler r1

/-- `conversationState.get(jid)`. -/
def getState (jid : String) : Handler (Option Session) := fun r =>
  (some (r.world.conversationState jid), r)

/-- `fs.existsSync(p)`; the empty path names no file. -/
def existsSync (w : World) (p : String) : Bool := p ≠ "" && (w.disk p).isSome

/-- The world after `conversationState.set(jid, s)`. -/
def World.setState (w : World) (jid : String) (s : Session) : World :=
  { w with conversationState := fun k => if k = jid then some s else w.conversationState k }

/-- The world after `conversationState.delete(jid)`. -/
def World.deleteState (w : World) (jid : String) : World :=
  { w with conversationState := fun k => if k = jid then none else w.conversationState k }

/-- The world after `fs.unlinkSync(p)` removed the file `p`. -/
def World.unlink (w : World) (p : String) : World :=
  { w with disk := fun k => if k = p then none else w.disk k }

/-- The world after `fs.writeFileSync(p, buffer)` succeeded. -/
def World.write (w : World) (p : String) (buffer : Buffer) : World :=
  { w with disk := fun k => if k = p then some buffer else w.disk k }

/-- The world after the conditional unlink of lines 225-227 and 235-237:
`if (filePath && fs.existsSync(filePath)) fs.unlinkSync(filePath)`. -/
def World.release (w : World) (filePath : Option String) : World :=
  match filePath with
  | some p => if p ≠ "" ∧ existsSync w p then w.unlink p else w
  | none => w

/-- `conversationState.set(jid, s)`. -/
def setState (jid : String) (s : Session) : Handler Unit := fun r =>
  (some (), { r with world := r.world.setState jid s })

/-- `conversationState.delete(jid)`. -/
def deleteState (jid : String) : Handler Unit := fun r =>
  (some (), { r with world := r.world.deleteState jid })

/-- `fs.writeFileSync(p, buffer)`: throws when the outside refuses the write. -/
def writeFileSync (env : Env) (p : String) (buffer : Buffer) : Handler Unit := fun r =>
  if env.writeOk then (some (), { r with world := r.world.write p buffer }) else (none, r)

/-- `await downloadMediaMessage(m, 'buffer', ...)`. -/
def downloadMediaMessage (env : Env) : Handler Buffer := fun r => (env.download, r)

/-- `await sock.sendMessage(jid, { text })`: the call is recorded, and it throws
when the transport rejects it. -/
def sendMessage (env : Env) (jid : String) (reply : Reply) : Handler Unit := fun r =>
  let ok := env.sendOk r.sends.length
  ((if ok then some () else none), { r with sends := r.sends ++ [⟨jid, reply, ok⟩] })

/-- The statement `if (filePath && fs.existsSync(filePath)) fs.unlinkSync(filePath)`. -/
def releaseFile (filePath : Option String) : Handler Unit := fun r =>
  (some (), { r with world := r.world.release filePath })

/-! ## `printDocument` -/

/-- The `try` block of `printDocument` after `msg` was built (lines 66-79): the
connector is called; an `err`, a status other than `'successful-ok'`, and a
response without `job-attributes-tag` (reading its `job-id` for the log line
throws, and the `catch` of line 81 returns `false`) all give `false`. -/
def printOutcome (c : ConnectorResult) : Bool :=
  match c with
  | .err => false
  | .res response =>
    if response.statusCode = "successful-ok" then
      match response.jobAttributesTag with
      | some _ => true
      | none => false
    else false

/-- Lines 36-85, `printDocument(filePath, { copies, colorMode })`. It never throws. -/
def printDocument (PRINTER_IP : String) (env : Env) (filePath : Option String)
    (copies : Option JSNumber) (colorMode : Option ColorMode) : Handler Bool := fun r =>
  if PRINTER_IP = PRINTER_IP_PLACEHOLDER then (some false, r)
  else
    match filePath with
    | none => (some false, r)
    | some p =>
      if ¬ existsSync r.world p then (some false, r)
      else match r.world.disk p with
      | none => (some false, r)
      | some fileBuffer =>
        let msg : IppMessage :=
          { requestingUserName := "WhatsAppBot"
            jobName := basename p
            documentFormat := "application/octet-stream"
            copies := match copies with
              | some c => if c.truthy then c else .finite 1
              | none => .finite 1
            printColorMode := if colorMode = some .color then "color" else "monochrome"
            data := fileBuffer }
        (some (printOutcome env.connector),
          { r with jobs := r.jobs ++ [⟨PRINTER_URI PRINTER_IP, "Print-Job", msg⟩] })

/-! ## The `messages.upsert` handler -/

/-- `a || b` for a string `a` that may be `undefined`: `b` when `a` is absent or empty. -/
def strOr (a : Option String) (b : String) : String :=
  match a with
  | some t => if t = "" then b else t
  | none => b

/-- `Object.keys(m.message)[0]`. -/
def messageType (body : List Field) : Option String := body.head?.map Field.key

/-- `m.message[messageType]`. -/
def messageContent (body : List Field) : Option Field := body.head?

/-- `m.message.conversation`. -/
def conversationText (body : List Field) : Option String :=
  match body.find? (fun f => f.key = "conversation") with
  | some (.conversation text) => some text
  | _ => none

/-- `m.message.extendedTextMessage?.text`. -/
def extendedText (body : List Field) : Option String :=
  match body.find? (fun f => f.key = "extendedTextMessage") with
  | some (.extendedTextMessage text) => text
  | _ => none

/-- The text of the message as line 139 reads it:
`m.message.conversation || m.message.extendedTextMessage?.text || ''`. -/
def rawText (body : List Field) : String :=
  strOr (conversationText body) (strOr (extendedText body) "")

/-- Line 139, `textContent`: the text in lower case and trimmed. -/
def textContent (body : List Field) : String := trim (toLowerCase (rawText body))

/-- The words that restart the conversation (line 141). -/
def greetings : List String := ["oi", "olá", "iniciar"]

/-- `supportedMessages` (line 148). -/
def supportedMessages : List String := ["documentMessage", "imageMessage"]

/-- Line 151: `messageContent.fileName`, or else the message id with the second
piece of the mimetype as extension. A mimetype without `/` gives the extension
`undefined`; `none` stands for the `TypeError` that reading `mimetype.split` of
a missing mimetype throws. -/
def uploadFileName (m : WAMessage) (content : Option Field) : Option String :=
  let fromMimetype : Option String :=
    match content.bind Field.mimetype with
    | some mt => some (m.key.id ++ "." ++ ((splitSlash mt.data)[1]?.elim "undefined" String.mk))
    | none => none
  match content.bind Field.fileName with
  | some name => if name ≠ "" then some name else fromMimetype
  | none => fromMimetype

/-- Lines 137-230, the body of the `try`. The record `userState` is the object
held by the map whenever it was found there, so an assignment to one of its
properties is a `setState` here. -/
def tryBlock (PRINTER_IP : String) (env : Env) (m : WAMessage) (body : List Field)
    (jid : String) (userState : Session) : Handler Unit :=
  if userState.status = .awaiting_welcome ∨ textContent body ∈ greetings then do
    sendMessage env jid .welcome
    setState jid { status := .awaiting_file }
  else if userState.status = .awaiting_file then
    if messageType body ∈ supportedMessages.map some then do
      let buffer ← downloadMediaMessage env
      let fileName ← orThrow (uploadFileName m (messageContent body))
      let filePath := pathJoin UPLOADS_DIR fileName
      writeFileSync env filePath buffer
      setState jid { userState with
        filePath := some filePath, fileName := some fileName, status := .awaiting_color_choice }
      sendMessage env jid (.menu fileName)
    else
      sendMessage env jid .invalidFile
  else if userState.status = .awaiting_color_choice then
    if messageType body ≠ some "conversation" ∧ messageType body ≠ some "extendedTextMessage" then
      sendMessage env jid .invalidOptionKind
    else
      let choice := trim (textContent body)
      let chosen : Option ColorMode :=
        if choice = "1" then some .mono else if choice = "2" then some .color else none
      match chosen with
      | none => sendMessage env jid .invalidOption
      | some mode => do
        let userState := { userState with colorMode := some mode, status := .awaiting_copies_number }
        setState jid userState
        let colorSelectionText :=
          if userState.colorMode = some .color then "Colorida" else "Preto e Branco"
        sendMessage env jid (.copiesPrompt colorSelectionText)
  else if userState.status = .awaiting_copies_number then
    if messageType body ≠ some "conversation" ∧ messageType body ≠ some "extendedTextMessage" then
      sendMessage env jid .needNumber
    else
      let copies := parseInt (textContent body)
      if copies.isNaN ∨ copies.leZero then
        sendMessage env jid .invalidNumber
      else do
        let userState := { userState with copies := some copies }
        setState jid userState
        let colorText := if userState.colorMode = some .color then "colorido" else "preto e branco"
        sendMessage env jid (.printing copies userState.fileName colorText)
        let success ← printDocument PRINTER_IP env userState.filePath userState.copies
          userState.colorMode
        if success then sendMessage env jid .printed else sendMessage env jid .printFailed
        releaseFile userState.filePath
        deleteState jid
  else pure ()

/-- Lines 232-240, the `catch` block. -/
def catchBlock (env : Env) (jid : String) : Handler Unit := do
  let userStateOnError ← getState jid
  releaseFile (userStateOnError.bind Session.filePath)
  deleteState jid
  sendMessage env jid .unexpectedError

/-- Lines 127-241, the listener of `messages.upsert`. The value `none` stands for
a rejected promise (an exception left the handler). -/
def messagesUpsert (PRINTER_IP : String) (env : Env) (messages : List WAMessage) :
    Handler Unit :=
  match messages.head? with
  | none => raise
  | some m =>
    match m.message with
    | none => pure ()
    | some body =>
      if m.key.fromMe then pure ()
      else do
        let jid := m.key.remoteJid
        let stored ← getState jid
        let userState := stored.getD { status := .awaiting_welcome }
        tryCatch (tryBlock PRINTER_IP env m body jid userState) (catchBlock env jid)

/-- One run of the listener from the world `w`, with no call made yet. -/
def handle (PRINTER_IP : String) (env : Env) (w : World) (messages : List WAMessage) :
    Option Unit × Run :=
  messagesUpsert PRINTER_IP env messages { world := w, sends := [], jobs := [] }

/-! ## Vocabulary of the theorems -/

/-- The message counts as text for the handler (lines 171 and 197): its first
key is `conversation` or `extendedTextMessage`. -/
def isTextMessage (body : List Field) : Prop :=
  messageType body = some "conversation" ∨ messageType body = some "extendedTextMessage"

instance (body : List Field) : Decidable (isTextMessage body) := by
  unfold isTextMessage; infer_instance

/-- The value `printDocument` returns in the world `w`. -/
def printResult (PRINTER_IP : String) (env : Env) (filePath : Option String) (w : World) : Bool :=
  if PRINTER_IP = PRINTER_IP_PLACEHOLDER then false
  else match filePath with
    | none => false
    | some p => if existsSync w p then printOutcome env.connector else false

/-- The connector calls `printDocument` makes in the world `w`: none, or one. -/
def printCalls (PRINTER_IP : String) (filePath : Option String) (copies : Option JSNumber)
    (colorMode : Option ColorMode) (w : World) : List PrintCall :=
  if PRINTER_IP = PRINTER_IP_PLACEHOLDER then []
  else match filePath with
    | none => []
    | some p =>
      if existsSync w p then
        [⟨PRINTER_URI PRINTER_IP, "Print-Job",
          { requestingUserName := "WhatsAppBot"
            jobName := basename p
            documentFormat := "application/octet-stream"
            copies := match copies with
              | some c => if c.truthy then c else .finite 1
              | none => .finite 1
            printColorMode := if colorMode = some .color then "color" else "monochrome"
            data := (w.disk p).getD [] }⟩]
      else []

/-- The run from the world `w` that does nothing but send `reply` to `jid`,
under the `catch` block of the listener. -/
def replyOnly (env : Env) (w : World) (jid : String) (reply : Reply) : Option Unit × Run :=
  tryCatch (sendMessage env jid reply) (catchBlock env jid) { world := w, sends := [], jobs := [] }

/-- The `try` block of the listener run from the world `w` with an empty log:
its outcome (`none` when it throws) and the run state it stops in. -/
def tryRun (PRINTER_IP : String) (env : Env) (w : World) (m : WAMessage) (body : List Field) :
    Option Unit × Run :=
  tryBlock PRINTER_IP env m body m.key.remoteJid
    ((w.conversationState m.key.remoteJid).getD { status := .awaiting_welcome })
    { world := w, sends := [], jobs := [] }

/-- The world the `catch` block leaves when it starts in `w`: the file of the
record of `jid` released, the record deleted. -/
def World.recover (w : World) (jid : String) : World :=
  (w.release ((w.conversationState jid).bind Session.filePath)).deleteState jid

/-! ## Example inputs -/

/-- A conversation id. -/
def exampleJid : String := "5511999990000@s.whatsapp.net"

/-- A text message of `exampleJid` with the text `t`. -/
def textMessage (t : String) : WAMessage :=
  { key := { remoteJid := exampleJid, fromMe := false, id := "3EB0A1" },
    message := some [.conversation t] }

/-- An image message of `exampleJid`. -/
def imageMessage : WAMessage :=
  { key := { remoteJid := exampleJid, fromMe := false, id := "3EB0A2" },
    message := some [.imageMessage (some "image/jpeg")] }

/-- A PDF document message of `exampleJid` with the file name `name`. -/
def documentMessage (name : String) : WAMessage :=
  { key := { remoteJid := exampleJid, fromMe := false, id := "3EB0A3" },
    message := some [.documentMessage (some name) (some "application/pdf")] }

/-- A world without sessions and without files. -/
def worldEmpty : World :=
  { conversationState := fun _ => none, disk := fun _ => none }

/-- A world where `exampleJid` was welcomed and no file is on disk. -/
def worldFile : World :=
  { conversationState := fun k => if k = exampleJid then some { status := .awaiting_file } else none,
    disk := fun _ => none }

/-- A session that waits for the colour choice for `doc.pdf`. -/
def sessionColor : Session :=
  { status := .awaiting_color_choice,
    filePath := some "impressoes_recebidas/doc.pdf",
    fileName := some "doc.pdf" }

/-- A world where `exampleJid` has the session `sessionColor` and its file is on disk. -/
def worldColor : World :=
  { conversationState := fun k => if k = exampleJid then some sessionColor else none,
    disk := fun p => if p = "impressoes_recebidas/doc.pdf" then some [37, 80, 68, 70] else none }

/-- A session that waits for the number of copies of `doc.pdf`, to print in colour. -/
def sessionCopies : Session :=
  { status := .awaiting_copies_number,
    filePath := some "impressoes_recebidas/doc.pdf",
    fileName := some "doc.pdf",
    colorMode := some .color }

/-- A world where `exampleJid` has the session `sessionCopies` and its file is on disk. -/
def worldCopies : World :=
  { conversationState := fun k => if k = exampleJid then some sessionCopies else none,
    disk := fun p => if p = "impressoes_recebidas/doc.pdf" then some [37, 80, 68, 70] else none }

/-- Everything outside works: replies are delivered, the download gives four
bytes, the write succeeds and the printer answers `successful-ok` with job 7. -/
def envFine : Env :=
  { sendOk := fun _ => true,
    download := some [37, 80, 68, 70],
    writeOk := true,
    connector := .res { statusCode := "successful-ok", jobAttributesTag := some (some 7) } }

/-- As `envFine`, but the printer answers `successful-ok` without the group
`job-attributes-tag`. -/
def envNoJobAttributes : Env :=
  { envFine with
    connector := .res { statusCode := "successful-ok", jobAttributesTag := none } }

/-- As `envFine`, but `fs.writeFileSync` throws. -/
def envWriteFails : Env := { envFine with writeOk := false }

/-- As `envFine`, but the transport rejects every `sendMessage`. -/
def envTransportDown : Env := { envFine with sendOk := fun _ => false }

/-- A character list made of decimal digits and `-` signs. -/
def isNumeralChars (cs : List Char) : Prop := ∀ c ∈ cs, isDecimalDigit c = true ∨ c = '-'

/-- A Number that is at least `1`. -/
def JSNumber.geOne : JSNumber → Prop
  | .NaN => False
  | .finite v => 1 ≤ v
  | .infinity negative => negative = false

/-! ## Sequences of events -/

/-- The worlds the bot can be in between two events: it starts with the empty
map `new Map()` (line 26) and any disk, and each event runs the listener once,
with whatever the outside answers. -/
inductive Reachable : World → Prop where
  | start (w : World) (h : ∀ jid, w.conversationState jid = none) : Reachable w
  | step {w : World} (h : Reachable w) (PRINTER_IP : String) (env : Env)
      (messages : List WAMessage) : Reachable (handle PRINTER_IP env w messages).2.world

/-- The world after the events `steps`, each with one message and with the
answers of the outside for its run, were handled one after the other. -/
def runSteps (PRINTER_IP : String) (w : World) (steps : List (Env × WAMessage)) : World :=
  steps.foldl (fun w step => (handle PRINTER_IP step.1 w [step.2]).2.world) w

/-- What one run of the listener can do to the record of the sender `jid` in
the map of `w`: leave it, delete it, replace it by `{ status: 'awaiting_file' }`,
store the upload in a record that was in `awaiting_file` (lines 156-159), or
store the colour in a record that was in `awaiting_color_choice` (lines
178-187). The new record (or its absence) is `next`. -/
def RecordStep (w : World) (jid : String) (next : Option Session) : Prop :=
  next = w.conversationState jid ∨ next = none ∨ next = some { status := .awaiting_file } ∨
  (∃ s fileName, w.conversationState jid = some s ∧ s.status = .awaiting_file ∧
    next = some { s with filePath := some (pathJoin UPLOADS_DIR fileName),
                         fileName := some fileName, status := .awaiting_color_choice }) ∨
  (∃ s mode, w.conversationState jid = some s ∧ s.status = .awaiting_color_choice ∧
    next = some { s with colorMode := some mode, status := .awaiting_copies_number })

/-- The path invariant of a stored record: in `awaiting_color_choice` and in
`awaiting_copies_number` it has a non-empty `filePath`, in `awaiting_file` it
has none. -/
def filePathInvariant (s : Session) : Prop :=
  match s.status with
  | .awaiting_welcome => True
  | .awaiting_file => s.filePath = none
  | .awaiting_color_choice => ∃ p, s.filePath = some p ∧ p ≠ ""
  | .awaiting_copies_number => ∃ p, s.filePath = some p ∧ p ≠ ""

/-- The colour invariant of a stored record: `colorMode` is set exactly in
`awaiting_copies_number`, to `mono` or `color`, and `copies` is not set. -/
def colorModeInvariant (s : Session) : Prop :=
  (s.colorMode.isSome = true ↔ s.status = .awaiting_copies_number) ∧
  (∀ c, s.colorMode = some c → c = .mono ∨ c = .color) ∧
  s.copies = none

/-- The path `p` lies inside the uploads directory: it starts with
`impressoes_recebidas/`. -/
def insideUploads (p : String) : Bool := (UPLOADS_DIR.data ++ ['/']).isPrefixOf p.data

/-! ## Example inputs with two conversations -/

/-- A second conversation id. -/
def otherJid : String := "5511888880000@s.whatsapp.net"

/-- A text message of `jid` with the text `t`. -/
def textFrom (jid : String) (t : String) : WAMessage :=
  { key := { remoteJid := jid, fromMe := false, id := "3EB0B1" },
    message := some [.conversation t] }

/-- A PDF document message of `jid` with the file name `name`. -/
def documentFrom (jid : String) (name : String) : WAMessage :=
  { key := { remoteJid := jid, fromMe := false, id := "3EB0B2" },
    message := some [.documentMessage (some name) (some "application/pdf")] }

/-- As `envFine`, but the download gives the bytes `bytes`. -/
def envDownload (bytes : Buffer) : Env := { envFine with download := some bytes }

/-- A conversation up to the number of copies: greeting, a document `doc.pdf`,
the choice `2`. -/
def stepsToCopies : List (Env × WAMessage) :=
  [(envFine, textFrom exampleJid "oi"), (envFine, documentFrom exampleJid "doc.pdf"),
   (envFine, textFrom exampleJid "2")]

/-- Two conversations greet, then each sends a document named `doc.pdf`: the
first with the byte `1`, the second with the byte `2`. -/
def twoUploads : List (Env × WAMessage) :=
  [(envFine, textFrom exampleJid "oi"), (envFine, textFrom otherJid "oi"),
   (envDownload [1], documentFrom exampleJid "doc.pdf"),
   (envDownload [2], documentFrom otherJid "doc.pdf")]

/-- The second conversation goes on to the end: black and white, one copy. -/
def otherFinishes : List (Env × WAMessage) :=
  [(envFine, textFrom otherJid "1"), (envFine, textFrom otherJid "1")]

/-- A world without sessions where the source file `app.js` of the bot is on
disk, next to the uploads directory. -/
def worldWithSource : World :=
  { conversationState := fun _ => none,
    disk := fun p => if p = "app.js" then some [105, 109, 112, 111, 114, 116] else none }

/-- A conversation that greets and sends a document named `../app.js`. -/
def traversalUpload : List (Env × WAMessage) :=
  [(envFine, textFrom exampleJid "oi"), (envFine, documentFrom exampleJid "../app.js")]

/-- The conversation goes on to the end: black and white, one copy. -/
def selfFinishes : List (Env × WAMessage) :=
  [(envFine, textFrom exampleJid "1"), (envFine, textFrom exampleJid "1")]

/-! ## Evaluation rules of the effects -/

theorem bind_run {α β : Type} (x : Handler α) (f : α → Handler β) (r : Run) :
    (x >>= f) r = match x r with
      | (some a, r1) => f a r1
      | (none, r1) => (none, r1) := rfl

theorem pure_run {α : Type} (a : α) (r : Run) : (pure a : Handler α) r = (some a, r) := rfl

theorem raise_run {α : Type} (r : Run) : (raise : Handler α) r = (none, r) := rfl

theorem orThrow_run {α : Type} (o : Option α) (r : Run) : (orThrow o : Handler α) r = (o, r) := rfl

theorem tryCatch_run (body handler : Handler Unit) (r : Run) :
    tryCatch body handler r = match body r with
      | (some a, r1) => (some a, r1)
      | (none, r1) => handler r1 := rfl

theorem getState_run (jid : String) (r : Run) :
    getState jid r = (some (r.world.conversationState jid), r) := rfl

theorem setState_run (jid : String) (s : Session) (r : Run) :
    setState jid s r = (some (), { r with world := r.world.setState jid s }) := rfl

theorem deleteState_run (jid : String) (r : Run) :
    deleteState jid r = (some (), { r with world := r.world.deleteState jid }) := rfl

theorem releaseFile_run (fp : Option String) (r : Run) :
    releaseFile fp r = (some (), { r with world := r.world.release fp }) := rfl

theorem downloadMediaMessage_run (env : Env) (r : Run) :
    downloadMediaMessage env r = (env.download, r) := rfl

theorem writeFileSync_run (env : Env) (p : String) (buffer : Buffer) (r : Run) :
    writeFileSync env p buffer r =
      if env.writeOk then (some (), { r with world := r.world.write p buffer }) else (none, r) :=
  rfl

theorem sendMessage_run (env : Env) (jid : String) (reply : Reply) (r : Run) :
    sendMessage env jid reply r =
      ((if env.sendOk r.sends.length then some () else none),
        { r with sends := r.sends ++ [⟨jid, reply, env.sendOk r.sends.length⟩] }) := rfl

theorem catchBlock_run (env : Env) (jid : String) (r : Run) :
    catchBlock env jid r =
      ((if env.sendOk r.sends.length then some () else none),
        { world := (r.world.release ((r.world.conversationState jid).bind Session.filePath)).deleteState
            jid,
          sends := r.sends ++ [⟨jid, .unexpectedError, env.sendOk r.sends.length⟩],
          jobs := r.jobs }) := rfl

theorem replyOnly_ok (env : Env) (w : World) (jid : String) (reply : Reply)
    (h : env.sendOk 0 = true) :
    replyOnly env w jid reply =
      (some (), { world := w, sends := [⟨jid, reply, true⟩], jobs := [] }) := by
  simp [replyOnly, tryCatch_run, sendMessage_run, h]

theorem replyOnly_rejected (env : Env) (w : World) (jid : String) (reply : Reply)
    (h : env.sendOk 0 = false) :
    replyOnly env w jid reply =
      ((if env.sendOk 1 then some () else none),
        { world := w.recover jid,
          sends := [⟨jid, reply, false⟩, ⟨jid, .unexpectedError, env.sendOk 1⟩], jobs := [] }) := by
  simp [replyOnly, tryCatch_run, sendMessage_run, catchBlock_run, h, World.recover]

theorem printDocument_run (PRINTER_IP : String) (env : Env) (fp : Option String)
    (c : Option JSNumber) (cm : Option ColorMode) (r : Run) :
    printDocument PRINTER_IP env fp c cm r =
      (some (printResult PRINTER_IP env fp r.world),
        { r with jobs := r.jobs ++ printCalls PRINTER_IP fp c cm r.world }) := by
  unfold printResult printCalls printDocument
  by_cases h1 : PRINTER_IP = PRINTER_IP_PLACEHOLDER
  · simp [h1]
  · cases fp with
    | none => simp [h1]
    | some p =>
      by_cases h2 : existsSync r.world p = true
      · cases h3 : r.world.disk p with
        | none => simp [existsSync, h3] at h2
        | some buf => simp [h1, h2, h3]
      · simp [h1, h2]

/-! ## The world operations -/

@[simp] theorem setState_conversationState (w : World) (jid : String) (s : Session) (k : String) :
    (w.setState jid s).conversationState k = if k = jid then some s else w.conversationState k :=
  rfl

@[simp] theorem setState_disk (w : World) (jid : String) (s : Session) :
    (w.setState jid s).disk = w.disk := rfl

@[simp] theorem deleteState_conversationState (w : World) (jid : String) (k : String) :
    (w.deleteState jid).conversationState k = if k = jid then none else w.conversationState k :=
  rfl

@[simp] theorem deleteState_disk (w : World) (jid : String) :
    (w.deleteState jid).disk = w.disk := rfl

@[simp] theorem write_conversationState (w : World) (p : String) (b : Buffer) :
    (w.write p b).conversationState = w.conversationState := rfl

@[simp] theorem write_disk (w : World) (p : String) (b : Buffer) (k : String) :
    (w.write p b).disk k = if k = p then some b else w.disk k := rfl

@[simp] theorem release_conversationState (w : World) (fp : Option String) :
    (w.release fp).conversationState = w.conversationState := by
  unfold World.release
  cases fp with
  | none => rfl
  | some p => by_cases h : p ≠ "" ∧ existsSync w p = true <;> simp [h, World.unlink]

theorem release_disk (w : World) (fp : Option String) (k : String) :
    (w.release fp).disk k = if fp = some k ∧ existsSync w k = true then none else w.disk k := by
  unfold World.release
  cases fp with
  | none => simp
  | some p =>
    by_cases h : p ≠ "" ∧ existsSync w p = true
    · by_cases hk : k = p
      · subst hk; simp [h, World.unlink]
      · have hk2 : ¬ p = k := fun e => hk e.symm
        simp [h, World.unlink, hk, hk2]
    · by_cases hk : p = k
      · subst hk
        have h2 : ¬ existsSync w p = true := by
          intro he; apply h; refine ⟨?_, he⟩
          intro hp; simp [existsSync, hp] at he
        simp [h, h2]
      · simp [h, hk]

@[simp] theorem existsSync_setState (w : World) (jid : String) (s : Session) (p : String) :
    existsSync (w.setState jid s) p = existsSync w p := rfl

@[simp] theorem existsSync_deleteState (w : World) (jid : String) (p : String) :
    existsSync (w.deleteState jid) p = existsSync w p := rfl

@[simp] theorem existsSync_release_self (w : World) (p : String) :
    existsSync (w.release (some p)) p = false := by
  by_cases hp : p = ""
  · simp [existsSync, hp]
  · cases hd : w.disk p <;> simp [existsSync, release_disk, hp, hd]

theorem existsSync_release (w : World) (fp : Option String) (p : String) :
    existsSync (w.release fp) p = (existsSync w p && decide (fp ≠ some p)) := by
  by_cases h : fp = some p
  · subst h; simp
  · by_cases he : existsSync w p = true
    · simp [existsSync, release_disk, h] 
    · simp [existsSync, release_disk, h]

/-- The listener on an event whose first message has a body and is not the
bot's own: the `try` block runs from the empty log, under the `catch` block. -/
theorem handle_eq (PRINTER_IP : String) (env : Env) (w : World) (m : WAMessage)
    (rest : List WAMessage) (body : List Field)
    (hbody : m.message = some body) (hme : m.key.fromMe = false) :
    handle PRINTER_IP env w (m :: rest) =
      tryCatch (tryBlock PRINTER_IP env m body m.key.remoteJid
          ((w.conversationState m.key.remoteJid).getD { status := .awaiting_welcome }))
        (catchBlock env m.key.remoteJid) { world := w, sends := [], jobs := [] } := by
  simp [handle, messagesUpsert, hbody, hme, bind_run, getState]

theorem not_greeting_of_parse {t : String} (h : (parseInt t).isNaN = false) : t ∉ greetings := by
  intro hg
  simp only [greetings, List.mem_cons, List.mem_singleton, List.not_mem_nil, or_false] at hg
  rcases hg with rfl | rfl | rfl <;> revert h <;> decide

/-! ## Strings -/

theorem trimEnd_eq_rdropWhile (cs : List Char) : trimEnd cs = cs.rdropWhile isWhiteSpace := rfl

/-- Trimming a list that starts and ends with characters outside the white
space changes nothing. -/
theorem trim_data_of_ends (cs : List Char)
    (hfront : cs.dropWhile isWhiteSpace = cs) (hback : cs.rdropWhile isWhiteSpace = cs) :
    trim ⟨cs⟩ = ⟨cs⟩ := by
  simp only [trim, trimEnd_eq_rdropWhile, hfront, hback]

theorem dropWhile_rdropWhile_dropWhile (p : Char → Bool) (l : List Char) :
    (((l.dropWhile p).rdropWhile p).dropWhile p) = (l.dropWhile p).rdropWhile p := by
  cases hY : l.dropWhile p with
  | nil => simp [List.rdropWhile]
  | cons y ys =>
    have hy : ¬ p y = true := by
      have := List.head_dropWhile_not p l (by simp [hY])
      simpa [hY] using this
    have hpre : (y :: ys).rdropWhile p <+: (y :: ys) := List.rdropWhile_prefix p _
    cases hT : (y :: ys).rdropWhile p with
    | nil =>
      rfl
    | cons z zs =>
      rw [hT] at hpre
      have hz : z = y := by
        obtain ⟨t, ht⟩ := hpre
        simp only [List.cons_append, List.cons.injEq] at ht
        exact ht.1
      subst hz
      simp [List.dropWhile, hy]

/-- `trim` is idempotent: the `trim()` of line 176 changes nothing on
`textContent`, which line 139 trimmed already. -/
theorem trim_trim (s : String) : trim (trim s) = trim s := by
  simp only [trim, trimEnd_eq_rdropWhile, dropWhile_rdropWhile_dropWhile,
    List.rdropWhile_idempotent]

theorem trim_textContent (body : List Field) : trim (textContent body) = textContent body := by
  simp only [textContent, trim_trim]


/-! ## Decimal numerals and `parseInt` -/

theorem digitChar_spec : ∀ k, k < 10 →
    isDecimalDigit (Nat.digitChar k) = true ∧ (Nat.digitChar k).toNat - 48 = k := by
  decide

theorem digitsValue_append_singleton (xs : List Char) (d : Char) :
    digitsValue (xs ++ [d]) = 10 * digitsValue xs + (d.toNat - 48) := by
  simp [digitsValue, List.foldl_append]

/-- The digits `Nat.toDigitsCore` puts in front of its accumulator: a non-empty
run of decimal digits whose value is the number. -/
theorem toDigitsCore_spec : ∀ (fuel n : Nat), n < fuel →
    ∃ xs : List Char, (∀ ds, Nat.toDigitsCore 10 fuel n ds = xs ++ ds) ∧ xs ≠ [] ∧
      (∀ c ∈ xs, isDecimalDigit c = true) ∧ digitsValue xs = n := by
  intro fuel
  induction fuel with
  | zero => intro n h; omega
  | succ fuel ih =>
    intro n hn
    obtain ⟨hd1, hd2⟩ := digitChar_spec (n % 10) (Nat.mod_lt _ (by decide))
    by_cases h0 : n / 10 = 0
    · refine ⟨[Nat.digitChar (n % 10)], ?_, by simp, ?_, ?_⟩
      · intro ds; simp [Nat.toDigitsCore, h0]
      · intro c hc; simp only [List.mem_singleton] at hc; subst hc; exact hd1
      · have hlt : n < 10 := by
          by_contra hge
          have : 1 ≤ n / 10 := (Nat.le_div_iff_mul_le (by decide)).2 (by omega)
          omega
        simp only [digitsValue, List.foldl_cons, List.foldl_nil, Nat.mul_zero, Nat.zero_add]
        rw [hd2]; exact Nat.mod_eq_of_lt hlt
    · have hlt : n / 10 < fuel := by
        have : n / 10 < n := Nat.div_lt_self (by
          rcases Nat.eq_zero_or_pos n with h | h
          · subst h; simp at h0
          · exact h) (by decide)
        omega
      obtain ⟨xs, hxs, hne, hall, hval⟩ := ih (n / 10) hlt
      refine ⟨xs ++ [Nat.digitChar (n % 10)], ?_, by simp, ?_, ?_⟩
      · intro ds; simp [Nat.toDigitsCore, h0, hxs]
      · intro c hc
        rcases List.mem_append.1 hc with h | h
        · exact hall c h
        · simp only [List.mem_singleton] at h; subst h; exact hd1
      · rw [digitsValue_append_singleton, hval, hd2]; omega

theorem toDigits_spec (n : Nat) :
    Nat.toDigits 10 n ≠ [] ∧ (∀ c ∈ Nat.toDigits 10 n, isDecimalDigit c = true) ∧
      digitsValue (Nat.toDigits 10 n) = n := by
  obtain ⟨xs, hxs, hne, hall, hval⟩ := toDigitsCore_spec (n + 1) n (Nat.lt_succ_self n)
  have : Nat.toDigits 10 n = xs := by simp [Nat.toDigits, hxs]
  rw [this]; exact ⟨hne, hall, hval⟩

theorem toString_ofNat_data (k : Nat) : (toString (Int.ofNat k)).data = Nat.toDigits 10 k := rfl

theorem toString_negSucc_data (k : Nat) :
    (toString (Int.negSucc k)).data = '-' :: Nat.toDigits 10 (k + 1) := rfl


theorem digit_not_whiteSpace {c : Char} (h : isDecimalDigit c = true) : isWhiteSpace c = false := by
  simp only [isDecimalDigit, Bool.and_eq_true, decide_eq_true_eq] at h
  simp only [isWhiteSpace, Bool.or_eq_false_iff, decide_eq_false_iff_not, Bool.and_eq_false_imp,
    decide_eq_true_eq]
  omega

theorem digit_toLowerChar {c : Char} (h : isDecimalDigit c = true) : toLowerChar c = c := by
  simp only [isDecimalDigit, Bool.and_eq_true, decide_eq_true_eq] at h
  have : ¬ ((65 ≤ c.toNat ∧ c.toNat ≤ 90) ∨ (192 ≤ c.toNat ∧ c.toNat ≤ 222 ∧ c.toNat ≠ 215)) := by
    omega
  simp only [toLowerChar, this, if_false]

theorem digit_ne_sign {c : Char} (h : isDecimalDigit c = true) : c ≠ '-' ∧ c ≠ '+' := by
  constructor <;> (rintro rfl; revert h; decide)

theorem numeralChars_map_toLower {cs : List Char} (h : isNumeralChars cs) :
    cs.map toLowerChar = cs := by
  induction cs with
  | nil => rfl
  | cons c cs ih =>
    have hc : toLowerChar c = c := by
      rcases h c (List.mem_cons_self _ _) with hd | rfl
      · exact digit_toLowerChar hd
      · decide
    simp only [List.map_cons, hc, ih (fun x hx => h x (List.mem_cons_of_mem _ hx))]

theorem numeralChars_not_ws {cs : List Char} (h : isNumeralChars cs) :
    ∀ c ∈ cs, isWhiteSpace c = false := by
  intro c hc
  rcases h c hc with hd | rfl
  · exact digit_not_whiteSpace hd
  · decide

theorem dropWhile_of_none {cs : List Char} (h : ∀ c ∈ cs, isWhiteSpace c = false) :
    cs.dropWhile isWhiteSpace = cs := by
  cases cs with
  | nil => rfl
  | cons c cs => simp [List.dropWhile, h c (List.mem_cons_self _ _)]

theorem rdropWhile_of_none {cs : List Char} (h : ∀ c ∈ cs, isWhiteSpace c = false) :
    cs.rdropWhile isWhiteSpace = cs := by
  rw [List.rdropWhile_eq_self_iff]
  intro hl
  simp [h _ (List.getLast_mem hl)]

/-- Lower-casing and trimming leave a numeral as it is. -/
theorem normalize_numeralChars {cs : List Char} (h : isNumeralChars cs) :
    trim (toLowerCase ⟨cs⟩) = ⟨cs⟩ := by
  simp only [toLowerCase, numeralChars_map_toLower h]
  exact trim_data_of_ends cs (dropWhile_of_none (numeralChars_not_ws h))
    (rdropWhile_of_none (numeralChars_not_ws h))

theorem takeWhile_digits {cs : List Char} (h : ∀ c ∈ cs, isDecimalDigit c = true) :
    cs.takeWhile isDecimalDigit = cs := by
  rw [List.takeWhile_eq_self_iff]; exact h

/-- `parseInt` on a non-empty run of decimal digits. -/
theorem parseInt_digits {cs : List Char} (hne : cs ≠ [])
    (h : ∀ c ∈ cs, isDecimalDigit c = true) :
    parseInt ⟨cs⟩ = toNumber false (digitsValue cs) := by
  have hws : cs.dropWhile isWhiteSpace = cs :=
    dropWhile_of_none (fun c hc => digit_not_whiteSpace (h c hc))
  cases cs with
  | nil => exact absurd rfl hne
  | cons c cs =>
    have hc := h c (List.mem_cons_self _ _)
    obtain ⟨hm, hp⟩ := digit_ne_sign hc
    have htw := takeWhile_digits h
    have hneg : (match c :: cs with
        | '-' :: _ => true
        | _ => false) = false := by
      split
      · rename_i heq; simp only [List.cons.injEq] at heq; exact absurd heq.1 hm
      · rfl
    have hS1 : (match c :: cs with
        | '-' :: t => t
        | '+' :: t => t
        | _ => c :: cs) = c :: cs := by
      split
      · rename_i heq; simp only [List.cons.injEq] at heq; exact absurd heq.1 hm
      · rename_i heq; simp only [List.cons.injEq] at heq; exact absurd heq.1 hp
      · rfl
    unfold parseInt
    simp only [hws, hneg, hS1, htw]
    simp

/-- `parseInt` on `-` followed by a non-empty run of decimal digits. -/
theorem parseInt_minus_digits {cs : List Char} (hne : cs ≠ [])
    (h : ∀ c ∈ cs, isDecimalDigit c = true) :
    parseInt ⟨'-' :: cs⟩ = toNumber true (digitsValue cs) := by
  have htw := takeWhile_digits h
  have hws : ('-' :: cs).dropWhile isWhiteSpace = '-' :: cs := by
    simp [List.dropWhile, show isWhiteSpace '-' = false by decide]
  unfold parseInt
  simp [hws, htw, hne]


theorem toString_int_numeralChars (n : Int) : isNumeralChars (toString n).data := by
  cases n with
  | ofNat k =>
    rw [toString_ofNat_data]
    intro c hc; exact Or.inl ((toDigits_spec k).2.1 c hc)
  | negSucc k =>
    rw [toString_negSucc_data]
    intro c hc
    rcases List.mem_cons.1 hc with rfl | h
    · exact Or.inr rfl
    · exact Or.inl ((toDigits_spec (k + 1)).2.1 c h)

/-- The decimal numeral of an integer is its own normalized text. -/
theorem normalize_toString (n : Int) : trim (toLowerCase (toString n)) = toString n :=
  normalize_numeralChars (toString_int_numeralChars n)

/-- `parseInt` on the decimal numeral of an integer: the Number value of that
integer. -/
theorem parseInt_toString (n : Int) :
    parseInt (toString n) = toNumber (decide (n < 0)) n.natAbs := by
  cases n with
  | ofNat k =>
    obtain ⟨hne, hall, hval⟩ := toDigits_spec k
    have := parseInt_digits hne hall
    rw [hval] at this
    have hk : decide (Int.ofNat k < 0) = false := by simp
    rw [hk]
    exact this
  | negSucc k =>
    obtain ⟨hne, hall, hval⟩ := toDigits_spec (k + 1)
    have := parseInt_minus_digits hne hall
    rw [hval] at this
    have hk : decide (Int.negSucc k < 0) = true := by simp [Int.negSucc_lt_zero]
    rw [hk]
    exact this

theorem bitLengthAux_zero (fuel : Nat) : bitLengthAux fuel 0 = 0 := by
  cases fuel <;> simp [bitLengthAux]

theorem bitLengthAux_pos : ∀ (fuel n : Nat), n ≤ fuel → n ≠ 0 → 0 < bitLengthAux fuel n := by
  intro fuel n h hn
  cases fuel with
  | zero => omega
  | succ fuel => simp [bitLengthAux, hn]

theorem pow_bitLengthAux_le : ∀ (fuel n : Nat), n ≤ fuel → n ≠ 0 →
    2 ^ (bitLengthAux fuel n - 1) ≤ n := by
  intro fuel
  induction fuel with
  | zero => intro n h hn; omega
  | succ fuel ih =>
    intro n h hn
    simp only [bitLengthAux, hn, if_false, Nat.add_sub_cancel]
    by_cases h2 : n / 2 = 0
    · rw [h2, bitLengthAux_zero]; simp; omega
    · have hle : n / 2 ≤ fuel := by omega
      have := ih (n / 2) hle h2
      have hpos := bitLengthAux_pos fuel (n / 2) hle h2
      have e : bitLengthAux fuel (n / 2) = (bitLengthAux fuel (n / 2) - 1) + 1 := by omega
      rw [e, Nat.pow_succ]
      omega

theorem bitLengthAux_le_of_lt : ∀ (fuel n k : Nat), n < 2 ^ k → bitLengthAux fuel n ≤ k := by
  intro fuel
  induction fuel with
  | zero => intro n k _; simp [bitLengthAux]
  | succ fuel ih =>
    intro n k h
    by_cases hn : n = 0
    · simp [bitLengthAux, hn]
    · simp only [bitLengthAux, hn, if_false]
      cases k with
      | zero => simp at h; exact absurd h hn
      | succ k =>
        have : n / 2 < 2 ^ k := by
          rw [Nat.pow_succ] at h; omega
        have := ih (n / 2) k this
        omega

/-- Rounding to a double keeps a positive integer positive. -/
theorem roundToDouble_pos (n : Nat) (hn : 0 < n) : 0 < roundToDouble n := by
  unfold roundToDouble
  by_cases h : n < 2 ^ 53
  · rw [if_pos h]; exact hn
  · rw [if_neg h]
    have hb : 2 ^ (bitLength n - 1) ≤ n := pow_bitLengthAux_le n n (Nat.le_refl n) (by omega)
    have he : 2 ^ (bitLength n - 53) ≤ n :=
      Nat.le_trans (Nat.pow_le_pow_right (by decide) (by omega)) hb
    have hp : 0 < 2 ^ (bitLength n - 53) := Nat.two_pow_pos _
    have hq : 0 < n / 2 ^ (bitLength n - 53) := Nat.div_pos he hp
    simp only []
    split_ifs
    · exact Nat.mul_pos (by omega) hp
    · exact Nat.mul_pos hq hp

theorem toNumber_isNaN (negative : Bool) (k : Nat) : (toNumber negative k).isNaN = false := by
  unfold toNumber; simp only []; split_ifs <;> rfl

theorem toNumber_negative_leZero (k : Nat) : (toNumber true k).leZero = true := by
  unfold toNumber; simp only []; split_ifs <;> simp [JSNumber.leZero]

theorem toNumber_leZero (k : Nat) : (toNumber false k).leZero = decide (k = 0) := by
  by_cases hk : k = 0
  · subst hk; decide
  · have hr := roundToDouble_pos k (by omega)
    unfold toNumber; simp only [Bool.false_eq_true, if_false]
    split_ifs
    · simp [JSNumber.leZero, hk]
    · simp only [JSNumber.leZero, hk, decide_False, decide_eq_false_iff_not, not_le]
      exact_mod_cast hr

/-- Integers up to `2^53` are doubles: their Number value is exact. -/
theorem toNumber_exact (negative : Bool) (k : Nat) (hk : k ≤ 2 ^ 53) :
    toNumber negative k = .finite (if negative then -(k : Int) else (k : Int)) := by
  have hr : roundToDouble k = k := by
    rcases Nat.lt_or_eq_of_le hk with h | h
    · unfold roundToDouble; rw [if_pos h]
    · subst h; decide
  have hb : ¬ 1024 < bitLength k := by
    have : bitLength k ≤ 54 := bitLengthAux_le_of_lt k k 54 (by
      calc k ≤ 2 ^ 53 := hk
        _ < 2 ^ 54 := by decide)
    omega
  unfold toNumber
  simp only [hr, hb, if_false]

/-- A message without the keys `conversation` and `extendedTextMessage` has the
empty normalized text, which is no greeting. -/
theorem not_greeting_of_no_text_field (body : List Field)
    (h : ∀ f ∈ body, f.key ≠ "conversation" ∧ f.key ≠ "extendedTextMessage") :
    textContent body = "" ∧ textContent body ∉ greetings := by
  have h1 : body.find? (fun f => f.key = "conversation") = none := by
    rw [List.find?_eq_none]; intro f hf; simpa using (h f hf).1
  have h2 : body.find? (fun f => f.key = "extendedTextMessage") = none := by
    rw [List.find?_eq_none]; intro f hf; simpa using (h f hf).2
  have ht : textContent body = "" := by
    simp only [textContent, rawText, conversationText, extendedText, h1, h2, strOr]
    decide
  exact ⟨ht, by rw [ht]; decide⟩

/-! ## The run of the listener, branch by branch -/

/-- Lines 141-145: no record yet (or a greeting). -/
theorem handle_welcome (PRINTER_IP : String) (env : Env) (w : World) (m : WAMessage)
    (rest : List WAMessage) (body : List Field)
    (hbody : m.message = some body) (hme : m.key.fromMe = false)
    (hcond : ((w.conversationState m.key.remoteJid).getD { status := .awaiting_welcome }).status
        = .awaiting_welcome ∨ textContent body ∈ greetings) :
    handle PRINTER_IP env w (m :: rest) =
      if env.sendOk 0 then
        (some (), { world := w.setState m.key.remoteJid { status := .awaiting_file },
                    sends := [⟨m.key.remoteJid, .welcome, true⟩], jobs := [] })
      else
        ((if env.sendOk 1 then some () else none),
          { world := w.recover m.key.remoteJid,
            sends := [⟨m.key.remoteJid, .welcome, false⟩,
              ⟨m.key.remoteJid, .unexpectedError, env.sendOk 1⟩],
            jobs := [] }) := by
  rw [handle_eq PRINTER_IP env w m rest body hbody hme]
  simp only [tryBlock, hcond, ↓reduceIte]
  rcases Bool.eq_false_or_eq_true (env.sendOk 0) with h0 | h0 <;>
    simp [tryCatch_run, bind_run, setState_run, sendMessage_run, catchBlock_run, h0,
      World.recover]

/-- Line 165: in `awaiting_file`, anything but a supported attachment. -/
theorem handle_file_invalid (PRINTER_IP : String) (env : Env) (w : World) (m : WAMessage)
    (rest : List WAMessage) (body : List Field) (s : Session)
    (hbody : m.message = some body) (hme : m.key.fromMe = false)
    (hs : w.conversationState m.key.remoteJid = some s)
    (hst : s.status = .awaiting_file) (hg : textContent body ∉ greetings)
    (hkind : messageType body ∉ supportedMessages.map some) :
    handle PRINTER_IP env w (m :: rest) = replyOnly env w m.key.remoteJid .invalidFile := by
  rw [handle_eq PRINTER_IP env w m rest body hbody hme, hs]
  simp only [Option.getD, tryBlock, hst, hg, hkind, or_false, reduceCtorEq, ↓reduceIte]
  rfl

/-- Lines 150-162: in `awaiting_file`, a supported attachment. -/
theorem handle_file_upload (PRINTER_IP : String) (env : Env) (w : World) (m : WAMessage)
    (rest : List WAMessage) (body : List Field) (s : Session)
    (hbody : m.message = some body) (hme : m.key.fromMe = false)
    (hs : w.conversationState m.key.remoteJid = some s)
    (hst : s.status = .awaiting_file) (hg : textContent body ∉ greetings)
    (hkind : messageType body ∈ supportedMessages.map some) :
    handle PRINTER_IP env w (m :: rest) =
      let jid := m.key.remoteJid
      let failed : Option Unit × Run :=
        ((if env.sendOk 0 then some () else none),
          { world := w.recover jid, sends := [⟨jid, .unexpectedError, env.sendOk 0⟩], jobs := [] })
      match env.download with
      | none => failed
      | some buffer =>
        match uploadFileName m (messageContent body) with
        | none => failed
        | some fileName =>
          let filePath := pathJoin UPLOADS_DIR fileName
          let w1 := (w.write filePath buffer).setState jid
            { s with filePath := some filePath, fileName := some fileName,
                     status := .awaiting_color_choice }
          if env.writeOk then
            if env.sendOk 0 then
              (some (), { world := w1, sends := [⟨jid, .menu fileName, true⟩], jobs := [] })
            else
              ((if env.sendOk 1 then some () else none),
                { world := w1.recover jid,
                  sends := [⟨jid, .menu fileName, false⟩, ⟨jid, .unexpectedError, env.sendOk 1⟩],
                  jobs := [] })
          else failed := by
  rw [handle_eq PRINTER_IP env w m rest body hbody hme, hs]
  simp only [Option.getD, tryBlock, hst, hg, hkind, or_false, reduceCtorEq, ↓reduceIte]
  cases hd : env.download with
  | none => simp [tryCatch_run, bind_run, downloadMediaMessage_run, hd, catchBlock_run,
      World.recover]
  | some buffer =>
    cases hn : uploadFileName m (messageContent body) with
    | none => simp [tryCatch_run, bind_run, downloadMediaMessage_run, hd, hn, orThrow_run,
        catchBlock_run, World.recover]
    | some fileName =>
      rcases Bool.eq_false_or_eq_true env.writeOk with hw | hw <;>
        rcases Bool.eq_false_or_eq_true (env.sendOk 0) with h0 | h0 <;>
        simp [tryCatch_run, bind_run, downloadMediaMessage_run, hd, hn, orThrow_run,
          writeFileSync_run, setState_run, sendMessage_run, catchBlock_run, hw, h0,
          World.recover]

/-- Line 172: in `awaiting_color_choice`, a message that is no text. -/
theorem handle_color_nontext (PRINTER_IP : String) (env : Env) (w : World) (m : WAMessage)
    (rest : List WAMessage) (body : List Field) (s : Session)
    (hbody : m.message = some body) (hme : m.key.fromMe = false)
    (hs : w.conversationState m.key.remoteJid = some s)
    (hst : s.status = .awaiting_color_choice) (hg : textContent body ∉ greetings)
    (hkind : ¬ isTextMessage body) :
    handle PRINTER_IP env w (m :: rest) = replyOnly env w m.key.remoteJid .invalidOptionKind := by
  have hkind' : messageType body ≠ some "conversation" ∧
      messageType body ≠ some "extendedTextMessage" := by
    simpa [isTextMessage, not_or] using hkind
  rw [handle_eq PRINTER_IP env w m rest body hbody hme, hs]
  simp only [Option.getD, tryBlock, hst, hg, if_pos hkind', or_false, reduceCtorEq, ↓reduceIte]
  rfl

/-- Line 182: in `awaiting_color_choice`, a text other than `1` and `2`. -/
theorem handle_color_invalid (PRINTER_IP : String) (env : Env) (w : World) (m : WAMessage)
    (rest : List WAMessage) (body : List Field) (s : Session)
    (hbody : m.message = some body) (hme : m.key.fromMe = false)
    (hs : w.conversationState m.key.remoteJid = some s)
    (hst : s.status = .awaiting_color_choice) (hg : textContent body ∉ greetings)
    (hkind : isTextMessage body)
    (h1 : trim (textContent body) ≠ "1") (h2 : trim (textContent body) ≠ "2") :
    handle PRINTER_IP env w (m :: rest) = replyOnly env w m.key.remoteJid .invalidOption := by
  have hkind' : ¬ (messageType body ≠ some "conversation" ∧
      messageType body ≠ some "extendedTextMessage") := by
    rcases hkind with h | h <;> simp [h]
  rw [handle_eq PRINTER_IP env w m rest body hbody hme, hs]
  simp only [Option.getD, tryBlock, hst, hg, hkind', h1, h2, or_false, reduceCtorEq, ↓reduceIte]
  rfl

/-- Lines 177-193: in `awaiting_color_choice`, the text `1` or `2`. -/
theorem handle_color_choice (PRINTER_IP : String) (env : Env) (w : World) (m : WAMessage)
    (rest : List WAMessage) (body : List Field) (s : Session)
    (hbody : m.message = some body) (hme : m.key.fromMe = false)
    (hs : w.conversationState m.key.remoteJid = some s)
    (hst : s.status = .awaiting_color_choice) (hg : textContent body ∉ greetings)
    (hkind : isTextMessage body)
    (h12 : trim (textContent body) = "1" ∨ trim (textContent body) = "2") :
    handle PRINTER_IP env w (m :: rest) =
      let jid := m.key.remoteJid
      let mode : ColorMode := if trim (textContent body) = "1" then .mono else .color
      let label : String := if trim (textContent body) = "1" then "Preto e Branco" else "Colorida"
      let w1 := w.setState jid
        { s with colorMode := some mode, status := .awaiting_copies_number }
      if env.sendOk 0 then
        (some (), { world := w1, sends := [⟨jid, .copiesPrompt label, true⟩], jobs := [] })
      else
        ((if env.sendOk 1 then some () else none),
          { world := w1.recover jid,
            sends := [⟨jid, .copiesPrompt label, false⟩, ⟨jid, .unexpectedError, env.sendOk 1⟩],
            jobs := [] }) := by
  have hkind' : ¬ (messageType body ≠ some "conversation" ∧
      messageType body ≠ some "extendedTextMessage") := by
    rcases hkind with h | h <;> simp [h]
  rw [handle_eq PRINTER_IP env w m rest body hbody hme, hs]
  rcases h12 with h | h <;>
    rcases Bool.eq_false_or_eq_true (env.sendOk 0) with h0 | h0 <;>
    simp [tryBlock, hst, hg, hkind', h, tryCatch_run, bind_run, setState_run,
      sendMessage_run, catchBlock_run, h0, World.recover]

/-- Line 198: in `awaiting_copies_number`, a message that is no text. -/
theorem handle_copies_nontext (PRINTER_IP : String) (env : Env) (w : World) (m : WAMessage)
    (rest : List WAMessage) (body : List Field) (s : Session)
    (hbody : m.message = some body) (hme : m.key.fromMe = false)
    (hs : w.conversationState m.key.remoteJid = some s)
    (hst : s.status = .awaiting_copies_number) (hg : textContent body ∉ greetings)
    (hkind : ¬ isTextMessage body) :
    handle PRINTER_IP env w (m :: rest) = replyOnly env w m.key.remoteJid .needNumber := by
  have hkind' : messageType body ≠ some "conversation" ∧
      messageType body ≠ some "extendedTextMessage" := by
    simpa [isTextMessage, not_or] using hkind
  rw [handle_eq PRINTER_IP env w m rest body hbody hme, hs]
  simp only [Option.getD, tryBlock, hst, hg, if_pos hkind', or_false, reduceCtorEq, ↓reduceIte]
  rfl

/-- Line 205: in `awaiting_copies_number`, a text that `parseInt` reads as `NaN`
or as a number `<= 0`. -/
theorem handle_copies_reject (PRINTER_IP : String) (env : Env) (w : World) (m : WAMessage)
    (rest : List WAMessage) (body : List Field) (s : Session)
    (hbody : m.message = some body) (hme : m.key.fromMe = false)
    (hs : w.conversationState m.key.remoteJid = some s)
    (hst : s.status = .awaiting_copies_number) (hg : textContent body ∉ greetings)
    (hkind : isTextMessage body)
    (hbad : (parseInt (textContent body)).isNaN = true ∨
      (parseInt (textContent body)).leZero = true) :
    handle PRINTER_IP env w (m :: rest) = replyOnly env w m.key.remoteJid .invalidNumber := by
  have hkind' : ¬ (messageType body ≠ some "conversation" ∧
      messageType body ≠ some "extendedTextMessage") := by
    rcases hkind with h | h <;> simp [h]
  rw [handle_eq PRINTER_IP env w m rest body hbody hme, hs]
  simp only [Option.getD, tryBlock, hst, hg, hkind', hbad, or_false, reduceCtorEq, ↓reduceIte]
  rfl

/-- The `try` block in `awaiting_copies_number` on a text that `parseInt` reads
as a positive number: lines 209-229. -/
theorem tryBlock_copies_accept (PRINTER_IP : String) (env : Env) (m : WAMessage)
    (body : List Field) (jid : String) (s : Session)
    (hst : s.status = .awaiting_copies_number) (htext : isTextMessage body)
    (hnan : (parseInt (textContent body)).isNaN = false)
    (hpos : (parseInt (textContent body)).leZero = false) :
    tryBlock PRINTER_IP env m body jid s = (do
      setState jid { s with copies := some (parseInt (textContent body)) }
      sendMessage env jid (.printing (parseInt (textContent body)) s.fileName
        (if s.colorMode = some .color then "colorido" else "preto e branco"))
      let success ← printDocument PRINTER_IP env s.filePath
        (some (parseInt (textContent body))) s.colorMode
      if success then sendMessage env jid .printed else sendMessage env jid .printFailed
      releaseFile s.filePath
      deleteState jid) := by
  have hg := not_greeting_of_parse hnan
  have htext' : ¬ (messageType body ≠ some "conversation" ∧
      messageType body ≠ some "extendedTextMessage") := by
    rcases htext with h | h <;> simp [h]
  simp only [tryBlock, hst, hg, htext', hnan, hpos, or_false, if_false, reduceCtorEq,
    Bool.false_eq_true, ↓reduceIte]

/-- The whole run on an accepted number of copies, in each of the cases of the
transport accepting or rejecting the replies. -/
theorem handle_copies_accept (PRINTER_IP : String) (env : Env) (w : World) (m : WAMessage)
    (rest : List WAMessage) (body : List Field) (s : Session)
    (hbody : m.message = some body) (hme : m.key.fromMe = false)
    (hs : w.conversationState m.key.remoteJid = some s)
    (hst : s.status = .awaiting_copies_number) (htext : isTextMessage body)
    (hnan : (parseInt (textContent body)).isNaN = false)
    (hpos : (parseInt (textContent body)).leZero = false) :
    handle PRINTER_IP env w (m :: rest) =
      let jid := m.key.remoteJid
      let c := parseInt (textContent body)
      let w1 := w.setState jid { s with copies := some c }
      let sent0 : Sent := ⟨jid, .printing c s.fileName
        (if s.colorMode = some .color then "colorido" else "preto e branco"), env.sendOk 0⟩
      let sent1 : Sent :=
        ⟨jid, if printResult PRINTER_IP env s.filePath w1 then .printed else .printFailed,
          env.sendOk 1⟩
      let calls := printCalls PRINTER_IP s.filePath (some c) s.colorMode w1
      let wEnd := (w1.release s.filePath).deleteState jid
      if env.sendOk 0 then
        if env.sendOk 1 then (some (), { world := wEnd, sends := [sent0, sent1], jobs := calls })
        else ((if env.sendOk 2 then some () else none),
          { world := wEnd, sends := [sent0, sent1, ⟨jid, .unexpectedError, env.sendOk 2⟩],
            jobs := calls })
      else ((if env.sendOk 1 then some () else none),
        { world := wEnd, sends := [sent0, ⟨jid, .unexpectedError, env.sendOk 1⟩], jobs := [] }) := by
  rw [handle_eq PRINTER_IP env w m rest body hbody hme, hs]
  simp only [Option.getD, tryBlock_copies_accept PRINTER_IP env m body _ s hst htext hnan hpos]
  rcases Bool.eq_false_or_eq_true (env.sendOk 0) with h0 | h0
  · rcases Bool.eq_false_or_eq_true (env.sendOk 1) with h1 | h1
    · cases hb : printResult PRINTER_IP env s.filePath
          (w.setState m.key.remoteJid { s with copies := some (parseInt (textContent body)) }) <;>
        simp [tryCatch_run, bind_run, setState_run, sendMessage_run, printDocument_run,
          releaseFile_run, deleteState_run, catchBlock_run, h0, h1, hb]
    · cases hb : printResult PRINTER_IP env s.filePath
          (w.setState m.key.remoteJid { s with copies := some (parseInt (textContent body)) }) <;>
        simp [tryCatch_run, bind_run, setState_run, sendMessage_run, printDocument_run,
          releaseFile_run, deleteState_run, catchBlock_run, h0, h1, hb]
  · simp [tryCatch_run, bind_run, setState_run, sendMessage_run, printDocument_run,
          releaseFile_run, deleteState_run, catchBlock_run, h0]

/-- C1. Terminal cleanup regardless of the print outcome: when the session of
the sender is in `awaiting_copies_number` and the message is a text which
`parseInt` reads as a positive number, then after the listener ran the map has
no record for the sender and the file of the session no longer exists, for
every `PRINTER_IP` (configured or not), every outcome of the connector and
every behaviour of the transport. -/
theorem terminal_cleanup (PRINTER_IP : String) (env : Env) (w : World) (m : WAMessage)
    (rest : List WAMessage) (body : List Field) (s : Session)
    (hbody : m.message = some body) (hme : m.key.fromMe = false)
    (hs : w.conversationState m.key.remoteJid = some s)
    (hst : s.status = .awaiting_copies_number) (htext : isTextMessage body)
    (hnan : (parseInt (textContent body)).isNaN = false)
    (hpos : (parseInt (textContent body)).leZero = false) :
    (handle PRINTER_IP env w (m :: rest)).2.world.conversationState m.key.remoteJid = none ∧
    ∀ p, s.filePath = some p →
      existsSync (handle PRINTER_IP env w (m :: rest)).2.world p = false := by
  rw [handle_copies_accept PRINTER_IP env w m rest body s hbody hme hs hst htext hnan hpos]
  refine ⟨?_, ?_⟩
  · simp only []
    split_ifs <;> simp
  · intro p hp
    simp only [hp]
    split_ifs <;> simp

theorem terminal_cleanup_witness :
    (handle PRINTER_IP_PLACEHOLDER envTransportDown worldCopies
        [textMessage "3"]).2.world.conversationState exampleJid = none ∧
    existsSync (handle PRINTER_IP_PLACEHOLDER envTransportDown worldCopies
        [textMessage "3"]).2.world "impressoes_recebidas/doc.pdf" = false :=
  have h := terminal_cleanup PRINTER_IP_PLACEHOLDER envTransportDown worldCopies
    (textMessage "3") [] [.conversation "3"] sessionCopies rfl rfl rfl rfl
    (by decide) (by decide) (by decide)
  ⟨h.1, h.2 _ rfl⟩

/-- C2. Greeting override: whatever record the sender has (none, or one in any
status), a message whose normalized text is `oi`, `olá` or `iniciar` makes the
listener call `sendMessage` with the welcome text first and call the printing
connector not at all; and when the transport delivers that reply, the welcome
is the only reply and the record of the sender is replaced by the fresh record
`{ status: 'awaiting_file' }` without `filePath`, `fileName`, `colorMode` or
`copies`. (When the transport rejects the reply, the `catch` block runs.) -/
theorem greeting_override (PRINTER_IP : String) (env : Env) (w : World) (m : WAMessage)
    (rest : List WAMessage) (body : List Field)
    (hbody : m.message = some body) (hme : m.key.fromMe = false)
    (hgreet : textContent body ∈ greetings) :
    (handle PRINTER_IP env w (m :: rest)).2.sends.head? =
        some ⟨m.key.remoteJid, .welcome, env.sendOk 0⟩ ∧
    (handle PRINTER_IP env w (m :: rest)).2.jobs = [] ∧
    (env.sendOk 0 = true →
      (handle PRINTER_IP env w (m :: rest)).2.sends = [⟨m.key.remoteJid, .welcome, true⟩] ∧
      (handle PRINTER_IP env w (m :: rest)).2.world.conversationState m.key.remoteJid =
        some { status := .awaiting_file, filePath := none, fileName := none,
               colorMode := none, copies := none }) := by
  rw [handle_welcome PRINTER_IP env w m rest body hbody hme (Or.inr hgreet)]
  rcases Bool.eq_false_or_eq_true (env.sendOk 0) with h0 | h0 <;> simp [h0]

theorem greeting_override_witness :
    (handle "192.168.1.55" envFine worldCopies [textMessage "Oi"]).2.sends.head? =
        some ⟨exampleJid, .welcome, true⟩ ∧
    (handle "192.168.1.55" envFine worldCopies [textMessage "Oi"]).2.jobs = [] ∧
    (handle "192.168.1.55" envFine worldCopies [textMessage "Oi"]).2.sends =
        [⟨exampleJid, .welcome, true⟩] ∧
    (handle "192.168.1.55" envFine worldCopies
        [textMessage "Oi"]).2.world.conversationState exampleJid =
      some { status := .awaiting_file, filePath := none, fileName := none,
             colorMode := none, copies := none } :=
  have h := greeting_override "192.168.1.55" envFine worldCopies (textMessage "Oi") []
    [.conversation "Oi"] rfl rfl (by decide)
  ⟨h.1, h.2.1, (h.2.2 rfl).1, (h.2.2 rfl).2⟩

/-- C7. First contact: when the map has no record for the sender, every message
with a body (greeting, other text, attachment) makes the listener call
`sendMessage` with the welcome text first; no file is written or removed and
the printing connector is not called, whatever the transport does; and when the
transport delivers the reply, it is the only reply and the record stored for
the sender is `{ status: 'awaiting_file' }`, without `filePath` or `fileName`:
an attachment sent as first message is not stored. -/
theorem first_contact (PRINTER_IP : String) (env : Env) (w : World) (m : WAMessage)
    (rest : List WAMessage) (body : List Field)
    (hbody : m.message = some body) (hme : m.key.fromMe = false)
    (hnew : w.conversationState m.key.remoteJid = none) :
    (handle PRINTER_IP env w (m :: rest)).2.sends.head? =
        some ⟨m.key.remoteJid, .welcome, env.sendOk 0⟩ ∧
    (handle PRINTER_IP env w (m :: rest)).2.world.disk = w.disk ∧
    (handle PRINTER_IP env w (m :: rest)).2.jobs = [] ∧
    (env.sendOk 0 = true →
      (handle PRINTER_IP env w (m :: rest)).2.sends = [⟨m.key.remoteJid, .welcome, true⟩] ∧
      (handle PRINTER_IP env w (m :: rest)).2.world.conversationState m.key.remoteJid =
        some { status := .awaiting_file, filePath := none, fileName := none,
               colorMode := none, copies := none }) := by
  rw [handle_welcome PRINTER_IP env w m rest body hbody hme (Or.inl (by rw [hnew]; rfl))]
  rcases Bool.eq_false_or_eq_true (env.sendOk 0) with h0 | h0 <;>
    simp [h0, World.recover, hnew, World.release]

theorem first_contact_witness :
    (handle "192.168.1.55" envFine worldEmpty [imageMessage]).2.sends.head? =
        some ⟨exampleJid, .welcome, true⟩ ∧
    (handle "192.168.1.55" envFine worldEmpty [imageMessage]).2.world.disk = worldEmpty.disk ∧
    (handle "192.168.1.55" envFine worldEmpty [imageMessage]).2.jobs = [] ∧
    (handle "192.168.1.55" envFine worldEmpty [imageMessage]).2.sends =
        [⟨exampleJid, .welcome, true⟩] ∧
    (handle "192.168.1.55" envFine worldEmpty
        [imageMessage]).2.world.conversationState exampleJid =
      some { status := .awaiting_file, filePath := none, fileName := none,
             colorMode := none, copies := none } :=
  have h := first_contact "192.168.1.55" envFine worldEmpty imageMessage []
    [.imageMessage (some "image/jpeg")] rfl rfl rfl
  ⟨h.1, h.2.1, h.2.2.1, (h.2.2.2 rfl).1, (h.2.2.2 rfl).2⟩

@[simp] theorem printCalls_setState (PRINTER_IP : String) (fp : Option String)
    (c : Option JSNumber) (cm : Option ColorMode) (w : World) (jid : String) (s : Session) :
    printCalls PRINTER_IP fp c cm (w.setState jid s) = printCalls PRINTER_IP fp c cm w := rfl

@[simp] theorem printResult_setState (PRINTER_IP : String) (env : Env) (fp : Option String)
    (w : World) (jid : String) (s : Session) :
    printResult PRINTER_IP env fp (w.setState jid s) = printResult PRINTER_IP env fp w := rfl

theorem textContent_of_numeral {body : List Field} {n : Int} (h : rawText body = toString n) :
    textContent body = toString n := by
  rw [textContent, h, normalize_toString]

/-- C3, counterexample. The text `9007199254740993` is the decimal numeral of
`2^53 + 1`; the listener accepts it, but announces and requests
`9007199254740992` copies: the number of copies is not the integer written. -/
theorem copies_boundary_counterexample :
    rawText [.conversation "9007199254740993"] = toString (9007199254740993 : Int) ∧
    (handle "192.168.1.55" envFine worldCopies
        [textMessage "9007199254740993"]).2.sends.head? =
      some ⟨exampleJid, .printing (.finite 9007199254740992) (some "doc.pdf") "colorido", true⟩ ∧
    (handle "192.168.1.55" envFine worldCopies
        [textMessage "9007199254740993"]).2.jobs.map (fun j => j.msg.copies) =
      [.finite 9007199254740992] ∧
    JSNumber.finite 9007199254740992 ≠ JSNumber.finite 9007199254740993 := by
  refine ⟨by decide, by decide, by decide, by decide⟩

/-- C3, amended. Copies boundary: for every integer `n`, when the record `s` of
the sender is in `awaiting_copies_number` and the message is a text whose text
is the decimal numeral of `n`, then
* for `n >= 1` the text is accepted: the first reply announces the printing of
  `c` copies, where `c` is the Number value of `n` (the double nearest to `n`),
  which is `n` itself whenever `n <= 2^53`; when that reply is delivered,
  `printDocument` runs with `copies` equal to `c`; and the record of the sender
  is gone at the end;
* for `n <= 0` the text is rejected: the reply is the invalid-number text, the
  printing connector is not called, and when the reply is delivered the record
  is still `s`, in `awaiting_copies_number`, and the disk is as before. -/
theorem copies_boundary (PRINTER_IP : String) (env : Env) (w : World) (m : WAMessage)
    (rest : List WAMessage) (body : List Field) (s : Session) (n : Int)
    (hbody : m.message = some body) (hme : m.key.fromMe = false)
    (hs : w.conversationState m.key.remoteJid = some s)
    (hst : s.status = .awaiting_copies_number) (htext : isTextMessage body)
    (hnum : rawText body = toString n) :
    (1 ≤ n →
      (handle PRINTER_IP env w (m :: rest)).2.sends.head? =
        some ⟨m.key.remoteJid, .printing (toNumber false n.toNat) s.fileName
          (if s.colorMode = some .color then "colorido" else "preto e branco"), env.sendOk 0⟩ ∧
      (n ≤ 2 ^ 53 → toNumber false n.toNat = .finite n) ∧
      (env.sendOk 0 = true →
        (handle PRINTER_IP env w (m :: rest)).2.jobs =
          printCalls PRINTER_IP s.filePath (some (toNumber false n.toNat)) s.colorMode w ∧
        (handle PRINTER_IP env w (m :: rest)).2.sends[1]? =
          some ⟨m.key.remoteJid,
            if printResult PRINTER_IP env s.filePath w then .printed else .printFailed,
            env.sendOk 1⟩) ∧
      (handle PRINTER_IP env w (m :: rest)).2.world.conversationState m.key.remoteJid = none) ∧
    (n ≤ 0 →
      (handle PRINTER_IP env w (m :: rest)).2.sends.head? =
        some ⟨m.key.remoteJid, .invalidNumber, env.sendOk 0⟩ ∧
      (handle PRINTER_IP env w (m :: rest)).2.jobs = [] ∧
      (env.sendOk 0 = true →
        (handle PRINTER_IP env w (m :: rest)).2.world.conversationState m.key.remoteJid = some s ∧
        (handle PRINTER_IP env w (m :: rest)).2.world.disk = w.disk)) := by
  have htc := textContent_of_numeral hnum
  have hparse := parseInt_toString n
  refine ⟨?_, ?_⟩
  · intro hn
    have hneg : decide (n < 0) = false := by simp; omega
    have habs : n.natAbs = n.toNat := by omega
    have hp : parseInt (textContent body) = toNumber false n.toNat := by
      rw [htc, hparse, hneg, habs]
    have hnan : (parseInt (textContent body)).isNaN = false := by rw [hp, toNumber_isNaN]
    have hpos : (parseInt (textContent body)).leZero = false := by
      rw [hp, toNumber_leZero]; simp; omega
    rw [handle_copies_accept PRINTER_IP env w m rest body s hbody hme hs hst htext hnan hpos, hp]
    refine ⟨?_, ?_, ?_, ?_⟩
    · simp only []; split_ifs <;> simp
    · intro hle
      have hk : n.toNat ≤ 2 ^ 53 := by
        have : (n.toNat : Int) ≤ 2 ^ 53 := by rw [Int.toNat_of_nonneg (by omega)]; exact hle
        exact_mod_cast this
      rw [toNumber_exact false n.toNat hk]
      simp only [Bool.false_eq_true, if_false]
      rw [Int.toNat_of_nonneg (by omega)]
    · intro h0
      simp only [h0, if_true, printResult_setState, printCalls_setState]
      split_ifs <;> simp
    · simp only []; split_ifs <;> simp
  · intro hn
    have hbad : (parseInt (textContent body)).isNaN = true ∨
        (parseInt (textContent body)).leZero = true := by
      right
      rw [htc, hparse]
      by_cases h0 : n = 0
      · subst h0; decide
      · have hneg : decide (n < 0) = true := by simp; omega
        rw [hneg, toNumber_negative_leZero]
    have hg : textContent body ∉ greetings := by
      rw [htc]
      intro hmem
      have hchars := toString_int_numeralChars n
      simp only [greetings, List.mem_cons, List.mem_singleton, List.not_mem_nil, or_false] at hmem
      rcases hmem with h | h | h <;> rw [h] at hchars
      · exact absurd (hchars 'o' (by decide)) (by decide)
      · exact absurd (hchars 'o' (by decide)) (by decide)
      · exact absurd (hchars 'i' (by decide)) (by decide)
    rw [handle_copies_reject PRINTER_IP env w m rest body s hbody hme hs hst hg htext hbad]
    rcases Bool.eq_false_or_eq_true (env.sendOk 0) with h0 | h0
    · rw [replyOnly_ok _ _ _ _ h0]; simp [h0, hs]
    · rw [replyOnly_rejected _ _ _ _ h0]; simp [h0]

theorem copies_boundary_witness :
    (handle "192.168.1.55" envFine worldCopies [textMessage "9999"]).2.sends.head? =
      some ⟨exampleJid, .printing (toNumber false 9999) (some "doc.pdf") "colorido", true⟩ ∧
    toNumber false 9999 = .finite 9999 ∧
    (handle "192.168.1.55" envFine worldCopies
        [textMessage "9999"]).2.world.conversationState exampleJid = none ∧
    (handle "192.168.1.55" envFine worldCopies [textMessage "-1"]).2.sends.head? =
      some ⟨exampleJid, .invalidNumber, true⟩ ∧
    (handle "192.168.1.55" envFine worldCopies
        [textMessage "-1"]).2.world.conversationState exampleJid = some sessionCopies :=
  have h := (copies_boundary "192.168.1.55" envFine worldCopies (textMessage "9999") []
    [.conversation "9999"] sessionCopies 9999 rfl rfl rfl rfl (by decide) (by decide)).1
    (by decide)
  have k := (copies_boundary "192.168.1.55" envFine worldCopies (textMessage "-1") []
    [.conversation "-1"] sessionCopies (-1) rfl rfl rfl rfl (by decide) (by decide)).2
    (by decide)
  ⟨h.1, h.2.1 (by decide), h.2.2.2, k.1, (k.2.2 rfl).1⟩

/-- C4, counterexample. The text `3abc` is no greeting and is not the decimal
numeral of any integer, yet in `awaiting_copies_number` it is not answered with
the invalid-number text: `parseInt` reads `3`, a print job with 3 copies is
submitted, the file is deleted and the record removed. -/
theorem invalid_copies_counterexample :
    (∀ n : Int, toString n ≠ "3abc") ∧
    textContent [.conversation "3abc"] ∉ greetings ∧
    (handle "192.168.1.55" envFine worldCopies [textMessage "3abc"]).2.sends =
      [⟨exampleJid, .printing (.finite 3) (some "doc.pdf") "colorido", true⟩,
       ⟨exampleJid, .printed, true⟩] ∧
    (handle "192.168.1.55" envFine worldCopies [textMessage "3abc"]).2.jobs.map
        (fun j => j.msg.copies) = [.finite 3] ∧
    (handle "192.168.1.55" envFine worldCopies
        [textMessage "3abc"]).2.world.conversationState exampleJid = none ∧
    (handle "192.168.1.55" envFine worldCopies
        [textMessage "3abc"]).2.world.disk "impressoes_recebidas/doc.pdf" = none := by
  refine ⟨?_, by decide, by decide, by decide, by decide, by decide⟩
  intro n h
  have hchars := toString_int_numeralChars n
  rw [h] at hchars
  exact absurd (hchars 'a' (by decide)) (by decide)

/-- C4, amended. Invalid copies text is a non-terminal dead end: when the record
`s` of the sender is in `awaiting_copies_number` and the message is a text, no
greeting, which `parseInt` reads as `NaN` (no digit after the optional sign) or
as a number `<= 0`, the reply is the invalid-number text and the printing
connector is not called; when the reply is delivered, it is the only reply,
the record is still `s` and no file was deleted or written. -/
theorem invalid_copies (PRINTER_IP : String) (env : Env) (w : World) (m : WAMessage)
    (rest : List WAMessage) (body : List Field) (s : Session)
    (hbody : m.message = some body) (hme : m.key.fromMe = false)
    (hs : w.conversationState m.key.remoteJid = some s)
    (hst : s.status = .awaiting_copies_number) (htext : isTextMessage body)
    (hg : textContent body ∉ greetings)
    (hbad : (parseInt (textContent body)).isNaN = true ∨
      (parseInt (textContent body)).leZero = true) :
    (handle PRINTER_IP env w (m :: rest)).2.sends.head? =
      some ⟨m.key.remoteJid, .invalidNumber, env.sendOk 0⟩ ∧
    (handle PRINTER_IP env w (m :: rest)).2.jobs = [] ∧
    (env.sendOk 0 = true →
      (handle PRINTER_IP env w (m :: rest)).2.sends =
        [⟨m.key.remoteJid, .invalidNumber, true⟩] ∧
      (handle PRINTER_IP env w (m :: rest)).2.world.conversationState m.key.remoteJid = some s ∧
      (handle PRINTER_IP env w (m :: rest)).2.world.disk = w.disk) := by
  rw [handle_copies_reject PRINTER_IP env w m rest body s hbody hme hs hst hg htext hbad]
  rcases Bool.eq_false_or_eq_true (env.sendOk 0) with h0 | h0
  · rw [replyOnly_ok _ _ _ _ h0]; simp [h0, hs]
  · rw [replyOnly_rejected _ _ _ _ h0]; simp [h0]

theorem invalid_copies_witness :
    (handle "192.168.1.55" envFine worldCopies [textMessage "abc"]).2.sends.head? =
      some ⟨exampleJid, .invalidNumber, true⟩ ∧
    (handle "192.168.1.55" envFine worldCopies [textMessage "abc"]).2.jobs = [] ∧
    (handle "192.168.1.55" envFine worldCopies [textMessage "abc"]).2.sends =
      [⟨exampleJid, .invalidNumber, true⟩] ∧
    (handle "192.168.1.55" envFine worldCopies
        [textMessage "abc"]).2.world.conversationState exampleJid = some sessionCopies ∧
    (handle "192.168.1.55" envFine worldCopies [textMessage "abc"]).2.world.disk =
      worldCopies.disk :=
  have h := invalid_copies "192.168.1.55" envFine worldCopies (textMessage "abc") []
    [.conversation "abc"] sessionCopies rfl rfl rfl rfl (by decide) (by decide)
    (Or.inl (by decide))
  ⟨h.1, h.2.1, (h.2.2 rfl).1, (h.2.2 rfl).2.1, (h.2.2 rfl).2.2⟩

theorem option_not_greeting {t : String} (h : t = "1" ∨ t = "2") : t ∉ greetings := by
  rcases h with rfl | rfl <;> decide

/-- C5. Colour-choice transition, for a sender whose record `s` is in
`awaiting_color_choice`. A text with normalized text `1` (respectively `2`)
makes the listener ask for the number of copies, and when that reply is
delivered the record is `s` with `colorMode` `mono` (respectively `color`) and
status `awaiting_copies_number`. Every message that is no greeting and is
either no text or a text other than `1` and `2` gets an invalid-option reply
(line 172 or line 182), and when that reply is delivered the record is still
`s` and the files on disk are as before; the printing connector is not called. -/
theorem colour_choice (PRINTER_IP : String) (env : Env) (w : World) (m : WAMessage)
    (rest : List WAMessage) (body : List Field) (s : Session)
    (hbody : m.message = some body) (hme : m.key.fromMe = false)
    (hs : w.conversationState m.key.remoteJid = some s)
    (hst : s.status = .awaiting_color_choice) :
    (isTextMessage body → textContent body = "1" →
      (handle PRINTER_IP env w (m :: rest)).2.sends.head? =
        some ⟨m.key.remoteJid, .copiesPrompt "Preto e Branco", env.sendOk 0⟩ ∧
      (env.sendOk 0 = true →
        (handle PRINTER_IP env w (m :: rest)).2.world.conversationState m.key.remoteJid =
          some { s with colorMode := some .mono, status := .awaiting_copies_number })) ∧
    (isTextMessage body → textContent body = "2" →
      (handle PRINTER_IP env w (m :: rest)).2.sends.head? =
        some ⟨m.key.remoteJid, .copiesPrompt "Colorida", env.sendOk 0⟩ ∧
      (env.sendOk 0 = true →
        (handle PRINTER_IP env w (m :: rest)).2.world.conversationState m.key.remoteJid =
          some { s with colorMode := some .color, status := .awaiting_copies_number })) ∧
    (textContent body ∉ greetings →
      ¬ isTextMessage body ∨ (textContent body ≠ "1" ∧ textContent body ≠ "2") →
      (handle PRINTER_IP env w (m :: rest)).2.sends.head? =
        some ⟨m.key.remoteJid,
          if isTextMessage body then .invalidOption else .invalidOptionKind, env.sendOk 0⟩ ∧
      (handle PRINTER_IP env w (m :: rest)).2.jobs = [] ∧
      (env.sendOk 0 = true →
        (handle PRINTER_IP env w (m :: rest)).2.world.conversationState m.key.remoteJid = some s ∧
        (handle PRINTER_IP env w (m :: rest)).2.world.disk = w.disk)) := by
  refine ⟨?_, ?_, ?_⟩
  · intro htext h1
    have hc : trim (textContent body) = "1" := by rw [trim_textContent, h1]
    rw [handle_color_choice PRINTER_IP env w m rest body s hbody hme hs hst
      (option_not_greeting (Or.inl h1)) htext (Or.inl hc)]
    rcases Bool.eq_false_or_eq_true (env.sendOk 0) with h0 | h0 <;> simp [h0, hc]
  · intro htext h2
    have hc : trim (textContent body) = "2" := by rw [trim_textContent, h2]
    have hc1 : trim (textContent body) ≠ "1" := by rw [hc]; decide
    rw [handle_color_choice PRINTER_IP env w m rest body s hbody hme hs hst
      (option_not_greeting (Or.inr h2)) htext (Or.inr hc)]
    rcases Bool.eq_false_or_eq_true (env.sendOk 0) with h0 | h0 <;> simp [h0, hc1]
  · intro hg hother
    by_cases htext : isTextMessage body
    · have h12 : textContent body ≠ "1" ∧ textContent body ≠ "2" := by
        rcases hother with h | h
        · exact absurd htext h
        · exact h
      rw [handle_color_invalid PRINTER_IP env w m rest body s hbody hme hs hst hg htext
        (by rw [trim_textContent]; exact h12.1) (by rw [trim_textContent]; exact h12.2)]
      rcases Bool.eq_false_or_eq_true (env.sendOk 0) with h0 | h0
      · rw [replyOnly_ok _ _ _ _ h0]; simp [htext, h0, hs]
      · rw [replyOnly_rejected _ _ _ _ h0]; simp [htext, h0]
    · rw [handle_color_nontext PRINTER_IP env w m rest body s hbody hme hs hst hg htext]
      rcases Bool.eq_false_or_eq_true (env.sendOk 0) with h0 | h0
      · rw [replyOnly_ok _ _ _ _ h0]; simp [htext, h0, hs]
      · rw [replyOnly_rejected _ _ _ _ h0]; simp [htext, h0]

theorem colour_choice_witness :
    (handle "192.168.1.55" envFine worldColor [textMessage " 2"]).2.sends.head? =
        some ⟨exampleJid, .copiesPrompt "Colorida", true⟩ ∧
    (handle "192.168.1.55" envFine worldColor
        [textMessage " 2"]).2.world.conversationState exampleJid =
      some { sessionColor with colorMode := some .color, status := .awaiting_copies_number } ∧
    (handle "192.168.1.55" envFine worldColor [imageMessage]).2.sends.head? =
        some ⟨exampleJid, .invalidOptionKind, true⟩ ∧
    (handle "192.168.1.55" envFine worldColor
        [imageMessage]).2.world.conversationState exampleJid = some sessionColor :=
  have h := colour_choice "192.168.1.55" envFine worldColor (textMessage " 2") []
    [.conversation " 2"] sessionColor rfl rfl rfl rfl
  have k := colour_choice "192.168.1.55" envFine worldColor imageMessage []
    [.imageMessage (some "image/jpeg")] sessionColor rfl rfl rfl rfl
  ⟨(h.2.1 (by decide) (by decide)).1, (h.2.1 (by decide) (by decide)).2 rfl,
    (k.2.2 (by decide) (Or.inl (by decide))).1,
    ((k.2.2 (by decide) (Or.inl (by decide))).2.2 rfl).1⟩

/-- C6. File-upload transition, for a sender whose record `s` is in
`awaiting_file` and a message that is no greeting. If the first key of the
message is `documentMessage` or `imageMessage`, the download resolves with
`buffer`, line 151 yields the name `fileName`, the write succeeds and the menu
reply is delivered, then the file `path.join(UPLOADS_DIR, fileName)` holds
`buffer`, every other file is as before, the record is `s` with that
`filePath`, that `fileName` and status `awaiting_color_choice`, the only reply
is the menu of line 161 and the printing connector is not called. For every
other first key the reply is the invalid-attachment text, and when it is
delivered the record is still `s` and the disk is as before. -/
theorem file_upload (PRINTER_IP : String) (env : Env) (w : World) (m : WAMessage)
    (rest : List WAMessage) (body : List Field) (s : Session)
    (hbody : m.message = some body) (hme : m.key.fromMe = false)
    (hs : w.conversationState m.key.remoteJid = some s)
    (hst : s.status = .awaiting_file) (hg : textContent body ∉ greetings) :
    (messageType body ∈ supportedMessages.map some →
      ∀ buffer fileName, env.download = some buffer →
        uploadFileName m (messageContent body) = some fileName →
        env.writeOk = true → env.sendOk 0 = true →
        (handle PRINTER_IP env w (m :: rest)).2.world.disk (pathJoin UPLOADS_DIR fileName) =
          some buffer ∧
        (∀ p, p ≠ pathJoin UPLOADS_DIR fileName →
          (handle PRINTER_IP env w (m :: rest)).2.world.disk p = w.disk p) ∧
        (handle PRINTER_IP env w (m :: rest)).2.world.conversationState m.key.remoteJid =
          some { s with filePath := some (pathJoin UPLOADS_DIR fileName),
                        fileName := some fileName, status := .awaiting_color_choice } ∧
        (handle PRINTER_IP env w (m :: rest)).2.sends =
          [⟨m.key.remoteJid, .menu fileName, true⟩] ∧
        (handle PRINTER_IP env w (m :: rest)).2.jobs = []) ∧
    (messageType body ∉ supportedMessages.map some →
      (handle PRINTER_IP env w (m :: rest)).2.sends.head? =
        some ⟨m.key.remoteJid, .invalidFile, env.sendOk 0⟩ ∧
      (handle PRINTER_IP env w (m :: rest)).2.jobs = [] ∧
      (env.sendOk 0 = true →
        (handle PRINTER_IP env w (m :: rest)).2.world.conversationState m.key.remoteJid = some s ∧
        (handle PRINTER_IP env w (m :: rest)).2.world.disk = w.disk)) := by
  refine ⟨?_, ?_⟩
  · intro hkind buffer fileName hd hn hw h0
    rw [handle_file_upload PRINTER_IP env w m rest body s hbody hme hs hst hg hkind]
    simp only [hd, hn, hw, h0, if_true]
    refine ⟨by simp, ?_, by simp, by simp, by simp⟩
    intro p hp
    simp [hp]
  · intro hkind
    rw [handle_file_invalid PRINTER_IP env w m rest body s hbody hme hs hst hg hkind]
    rcases Bool.eq_false_or_eq_true (env.sendOk 0) with h0 | h0
    · rw [replyOnly_ok _ _ _ _ h0]; simp [h0, hs]
    · rw [replyOnly_rejected _ _ _ _ h0]; simp [h0]

theorem file_upload_witness :
    (handle "192.168.1.55" envFine worldFile
        [documentMessage "doc.pdf"]).2.world.disk "impressoes_recebidas/doc.pdf" =
      some [37, 80, 68, 70] ∧
    (handle "192.168.1.55" envFine worldFile
        [documentMessage "doc.pdf"]).2.world.conversationState exampleJid =
      some { status := .awaiting_color_choice,
             filePath := some "impressoes_recebidas/doc.pdf",
             fileName := some "doc.pdf", colorMode := none, copies := none } ∧
    (handle "192.168.1.55" envFine worldFile [documentMessage "doc.pdf"]).2.sends =
      [⟨exampleJid, .menu "doc.pdf", true⟩] ∧
    (handle "192.168.1.55" envFine worldFile [textMessage "imprimir"]).2.sends.head? =
      some ⟨exampleJid, .invalidFile, true⟩ ∧
    (handle "192.168.1.55" envFine worldFile
        [textMessage "imprimir"]).2.world.conversationState exampleJid =
      some { status := .awaiting_file } :=
  have h := (file_upload "192.168.1.55" envFine worldFile (documentMessage "doc.pdf") []
    [.documentMessage (some "doc.pdf") (some "application/pdf")] { status := .awaiting_file }
    rfl rfl rfl rfl (by decide)).1 (by decide) [37, 80, 68, 70] "doc.pdf" rfl (by decide) rfl rfl
  have k := (file_upload "192.168.1.55" envFine worldFile (textMessage "imprimir") []
    [.conversation "imprimir"] { status := .awaiting_file }
    rfl rfl rfl rfl (by decide)).2 (by decide)
  ⟨h.1, h.2.2.1, h.2.2.2.1, k.1, (k.2.2 rfl).1⟩

/-- C8. Job attributes: when the record `s` of the sender is in
`awaiting_copies_number` with `colorMode` `c` and a `filePath` `p` whose file
exists, the printer address is configured, the message is a text that
`parseInt` reads as a positive number `n`, and the reply of line 212 is
delivered, then the printing connector is called exactly once, with operation
`Print-Job` on `ipp://PRINTER_IP/ipp/print`, and the request has `copies` equal
to `n` (which is at least 1), `print-color-mode` `color` for `c = color` and
`monochrome` for `c = mono`, `job-name` the base name of `p`, document format
`application/octet-stream`, user name `WhatsAppBot` and the bytes of the file. -/
theorem job_attributes (PRINTER_IP : String) (env : Env) (w : World) (m : WAMessage)
    (rest : List WAMessage) (body : List Field) (s : Session) (c : ColorMode) (p : String)
    (fileBuffer : Buffer)
    (hbody : m.message = some body) (hme : m.key.fromMe = false)
    (hs : w.conversationState m.key.remoteJid = some s)
    (hst : s.status = .awaiting_copies_number) (htext : isTextMessage body)
    (hnan : (parseInt (textContent body)).isNaN = false)
    (hpos : (parseInt (textContent body)).leZero = false)
    (hc : s.colorMode = some c) (hp : s.filePath = some p)
    (hfile : w.disk p = some fileBuffer) (hpne : p ≠ "")
    (hip : PRINTER_IP ≠ PRINTER_IP_PLACEHOLDER) (h0 : env.sendOk 0 = true) :
    (handle PRINTER_IP env w (m :: rest)).2.jobs =
      [{ printerUri := "ipp://" ++ PRINTER_IP ++ "/ipp/print",
         operation := "Print-Job",
         msg := { requestingUserName := "WhatsAppBot",
                  jobName := basename p,
                  documentFormat := "application/octet-stream",
                  copies := parseInt (textContent body),
                  printColorMode := match c with
                    | .color => "color"
                    | .mono => "monochrome",
                  data := fileBuffer } }] ∧
    (parseInt (textContent body)).geOne := by
  have hge : (parseInt (textContent body)).geOne := by
    cases hn : parseInt (textContent body) with
    | NaN => rw [hn] at hnan; simp [JSNumber.isNaN] at hnan
    | finite v =>
      rw [hn] at hpos
      simp only [JSNumber.leZero, decide_eq_false_iff_not, not_le] at hpos
      simp only [JSNumber.geOne]; omega
    | infinity negative =>
      rw [hn] at hpos
      simpa [JSNumber.leZero, JSNumber.geOne] using hpos
  have htruthy : (parseInt (textContent body)).truthy = true := by
    cases hn : parseInt (textContent body) with
    | NaN => rw [hn] at hnan; simp [JSNumber.isNaN] at hnan
    | finite v =>
      rw [hn] at hpos
      simp only [JSNumber.leZero, decide_eq_false_iff_not, not_le] at hpos
      simp only [JSNumber.truthy, decide_eq_true_eq]; omega
    | infinity negative => rfl
  have hex : existsSync w p = true := by
    simp [existsSync, hfile, hpne]
  refine ⟨?_, hge⟩
  rw [handle_copies_accept PRINTER_IP env w m rest body s hbody hme hs hst htext hnan hpos]
  simp only [h0, if_true]
  have hcalls : printCalls PRINTER_IP s.filePath (some (parseInt (textContent body)))
      s.colorMode (w.setState m.key.remoteJid
        { s with copies := some (parseInt (textContent body)) }) =
      [{ printerUri := "ipp://" ++ PRINTER_IP ++ "/ipp/print",
         operation := "Print-Job",
         msg := { requestingUserName := "WhatsAppBot",
                  jobName := basename p,
                  documentFormat := "application/octet-stream",
                  copies := parseInt (textContent body),
                  printColorMode := match c with
                    | .color => "color"
                    | .mono => "monochrome",
                  data := fileBuffer } }] := by
    simp only [printCalls, hip, if_false, hp, existsSync_setState, hex, if_true, htruthy, hc,
      PRINTER_URI, setState_disk, hfile, Option.getD]
    cases c <;> simp
  split_ifs <;> simp only [hcalls]

theorem job_attributes_witness :
    (handle "192.168.1.55" envFine worldCopies [textMessage "3"]).2.jobs =
      [{ printerUri := "ipp://192.168.1.55/ipp/print",
         operation := "Print-Job",
         msg := { requestingUserName := "WhatsAppBot",
                  jobName := "doc.pdf",
                  documentFormat := "application/octet-stream",
                  copies := .finite 3,
                  printColorMode := "color",
                  data := [37, 80, 68, 70] } }] :=
  (job_attributes "192.168.1.55" envFine worldCopies (textMessage "3") []
    [.conversation "3"] sessionCopies .color "impressoes_recebidas/doc.pdf" [37, 80, 68, 70]
    rfl rfl rfl rfl (by decide) (by decide) (by decide) rfl rfl rfl (by decide) (by decide)
    rfl).1

/-- What `printDocument` returns: `true` exactly when the address is configured,
the file exists, the connector resolves with a response of status
`successful-ok`, and that response carries the group `job-attributes-tag`. -/
theorem printResult_eq_true_iff (PRINTER_IP : String) (env : Env) (fp : Option String)
    (w : World) :
    printResult PRINTER_IP env fp w = true ↔
      PRINTER_IP ≠ PRINTER_IP_PLACEHOLDER ∧
      (∃ p, fp = some p ∧ existsSync w p = true) ∧
      (∃ response, env.connector = .res response ∧ response.statusCode = "successful-ok" ∧
        response.jobAttributesTag.isSome = true) := by
  unfold printResult
  by_cases hip : PRINTER_IP = PRINTER_IP_PLACEHOLDER
  · simp [hip]
  · cases fp with
    | none => simp [hip]
    | some p =>
      by_cases hex : existsSync w p = true
      · simp only [hip, if_false, hex, if_true, ne_eq, not_false_eq_true, Option.some.injEq,
          exists_eq_left', true_and]
        cases hc : env.connector with
        | err => simp [printOutcome]
        | res response =>
          by_cases hst : response.statusCode = "successful-ok"
          · cases hj : response.jobAttributesTag <;> simp [printOutcome, hst, hj]
          · simp [printOutcome, hst]
      · simp [hip, hex]

/-- C9, the code at the failing input. The address is configured, the file
exists and the connector resolves with a response of status `successful-ok`
that has no group `job-attributes-tag`: `printDocument` calls the connector and
returns `false`, and the listener tells the user that the print failed. -/
theorem submission_result_failing_input :
    envNoJobAttributes.connector =
      .res { statusCode := "successful-ok", jobAttributesTag := none } ∧
    existsSync worldCopies "impressoes_recebidas/doc.pdf" = true ∧
    (printDocument "192.168.1.55" envNoJobAttributes (some "impressoes_recebidas/doc.pdf")
      (some (.finite 3)) (some .color) { world := worldCopies, sends := [], jobs := [] }).1 =
        some false ∧
    (printDocument "192.168.1.55" envNoJobAttributes (some "impressoes_recebidas/doc.pdf")
      (some (.finite 3)) (some .color)
      { world := worldCopies, sends := [], jobs := [] }).2.jobs.length = 1 ∧
    (handle "192.168.1.55" envNoJobAttributes worldCopies [textMessage "3"]).2.sends =
      [⟨exampleJid, .printing (.finite 3) (some "doc.pdf") "colorido", true⟩,
       ⟨exampleJid, .printFailed, true⟩] := by
  refine ⟨rfl, by decide, by decide, by decide, by decide⟩

/-- When the `try` block throws, the listener ends in the outcome of the `catch`
block run from the state of the throw. -/
theorem handle_of_throw (PRINTER_IP : String) (env : Env) (w : World) (m : WAMessage)
    (rest : List WAMessage) (body : List Field)
    (hbody : m.message = some body) (hme : m.key.fromMe = false)
    (hthrow : (tryRun PRINTER_IP env w m body).1 = none) :
    handle PRINTER_IP env w (m :: rest) =
      catchBlock env m.key.remoteJid (tryRun PRINTER_IP env w m body).2 := by
  rw [handle_eq PRINTER_IP env w m rest body hbody hme, tryCatch_run]
  unfold tryRun at hthrow ⊢
  generalize tryBlock PRINTER_IP env m body m.key.remoteJid _ _ = x at hthrow ⊢
  obtain ⟨o, r1⟩ := x
  simp only at hthrow
  subst hthrow
  rfl

/-- Outside `awaiting_file`, the record which the map holds when the `try` block
throws has the `filePath` of the record the listener started with. -/
theorem tryBlock_throw_filePath (PRINTER_IP : String) (env : Env) (m : WAMessage)
    (body : List Field) (jid : String) (s : Session) (r : Run)
    (hs : r.world.conversationState jid = some s) (hst : s.status ≠ .awaiting_file)
    (hthrow : (tryBlock PRINTER_IP env m body jid s r).1 = none) :
    ((tryBlock PRINTER_IP env m body jid s r).2.world.conversationState jid).bind Session.filePath
      = s.filePath := by
  have e0 := Bool.eq_false_or_eq_true (env.sendOk r.sends.length)
  have e1 := Bool.eq_false_or_eq_true (env.sendOk (r.sends.length + 1))
  by_cases hw : s.status = .awaiting_welcome ∨ textContent body ∈ greetings
  · revert hthrow
    simp only [tryBlock, hw, if_true]
    rcases e0 with h0 | h0 <;> simp [bind_run, sendMessage_run, setState_run, h0, hs]
  · have hg : textContent body ∉ greetings := fun h => hw (Or.inr h)
    have hnw : s.status ≠ .awaiting_welcome := fun h => hw (Or.inl h)
    revert hthrow
    cases hstat : s.status with
    | awaiting_welcome => exact absurd hstat hnw
    | awaiting_file => exact absurd hstat hst
    | awaiting_color_choice =>
      simp only [tryBlock, hstat, hg, or_false, reduceCtorEq, ↓reduceIte]
      split_ifs <;>
        rcases e0 with h0 | h0 <;> simp [bind_run, sendMessage_run, setState_run, h0, hs]
    | awaiting_copies_number =>
      simp only [tryBlock, hstat, hg, or_false, reduceCtorEq, ↓reduceIte]
      split_ifs <;>
        rcases e0 with h0 | h0 <;> rcases e1 with h1 | h1 <;>
          cases hb : printResult PRINTER_IP env s.filePath r.world <;>
          simp [bind_run, sendMessage_run, setState_run, printDocument_run, releaseFile_run,
            deleteState_run, h0, h1, hb, hs]

/-- C10. Error recovery: whatever the record of the sender and whatever the
message, when the `try` block throws (the download rejects, line 151 or the
write throws, or a `sendMessage` rejects), then after the listener ran
* the map has no record for the sender;
* the file named by the `filePath` of the record which the map held at the
  moment of the throw no longer exists;
* the file named by the `filePath` of the record the sender had before the
  message no longer exists either, when that record was not in `awaiting_file`
  (there the upload replaces `filePath`);
* the last call of `sendMessage` carries the recovery text of line 239; it is
  delivered when the transport accepts that call, and otherwise the listener
  ends with that rejection. -/
theorem error_recovery (PRINTER_IP : String) (env : Env) (w : World) (m : WAMessage)
    (rest : List WAMessage) (body : List Field)
    (hbody : m.message = some body) (hme : m.key.fromMe = false)
    (hthrow : (tryRun PRINTER_IP env w m body).1 = none) :
    (handle PRINTER_IP env w (m :: rest)).2.world.conversationState m.key.remoteJid = none ∧
    (∀ p, ((tryRun PRINTER_IP env w m body).2.world.conversationState m.key.remoteJid).bind
        Session.filePath = some p →
      existsSync (handle PRINTER_IP env w (m :: rest)).2.world p = false) ∧
    (∀ s p, w.conversationState m.key.remoteJid = some s → s.status ≠ .awaiting_file →
      s.filePath = some p →
      existsSync (handle PRINTER_IP env w (m :: rest)).2.world p = false) ∧
    (handle PRINTER_IP env w (m :: rest)).2.sends =
      (tryRun PRINTER_IP env w m body).2.sends ++
        [⟨m.key.remoteJid, .unexpectedError,
          env.sendOk (tryRun PRINTER_IP env w m body).2.sends.length⟩] ∧
    ((handle PRINTER_IP env w (m :: rest)).1 = none ↔
      env.sendOk (tryRun PRINTER_IP env w m body).2.sends.length = false) := by
  rw [handle_of_throw PRINTER_IP env w m rest body hbody hme hthrow, catchBlock_run]
  have h2 : ∀ p, ((tryRun PRINTER_IP env w m body).2.world.conversationState
      m.key.remoteJid).bind Session.filePath = some p →
      existsSync (((tryRun PRINTER_IP env w m body).2.world.release
        (((tryRun PRINTER_IP env w m body).2.world.conversationState m.key.remoteJid).bind
          Session.filePath)).deleteState m.key.remoteJid) p = false := by
    intro p hp
    rw [hp]; simp
  refine ⟨by simp, h2, ?_, rfl, ?_⟩
  · intro s p hs hst hp
    apply h2
    have := tryBlock_throw_filePath PRINTER_IP env m body m.key.remoteJid s
      { world := w, sends := [], jobs := [] } hs hst
      (by simpa [tryRun, hs] using hthrow)
    simp only [tryRun, hs, Option.getD]
    rw [this, hp]
  · rcases Bool.eq_false_or_eq_true
      (env.sendOk (tryRun PRINTER_IP env w m body).2.sends.length) with h | h <;> simp [h]

theorem error_recovery_witness :
    (handle "192.168.1.55" envTransportDown worldCopies
        [textMessage "abc"]).2.world.conversationState exampleJid = none ∧
    existsSync (handle "192.168.1.55" envTransportDown worldCopies
        [textMessage "abc"]).2.world "impressoes_recebidas/doc.pdf" = false ∧
    (handle "192.168.1.55" envTransportDown worldCopies [textMessage "abc"]).2.sends =
      [⟨exampleJid, .invalidNumber, false⟩, ⟨exampleJid, .unexpectedError, false⟩] ∧
    (handle "192.168.1.55" envWriteFails worldFile
        [documentMessage "doc.pdf"]).2.world.conversationState exampleJid = none ∧
    (handle "192.168.1.55" envWriteFails worldFile [documentMessage "doc.pdf"]).2.sends =
      [⟨exampleJid, .unexpectedError, true⟩] :=
  have h := error_recovery "192.168.1.55" envTransportDown worldCopies (textMessage "abc") []
    [.conversation "abc"] rfl rfl (by decide)
  have k := error_recovery "192.168.1.55" envWriteFails worldFile (documentMessage "doc.pdf") []
    [.documentMessage (some "doc.pdf") (some "application/pdf")] rfl rfl (by decide)
  ⟨h.1, h.2.2.1 sessionCopies _ rfl (by decide) rfl, h.2.2.2.1, k.1, k.2.2.2.1⟩

/-! ## What one run does to the map -/

@[simp] theorem recover_conversationState (w : World) (jid k : String) :
    (w.recover jid).conversationState k = if k = jid then none else w.conversationState k := by
  simp [World.recover]

@[simp] theorem recover_disk (w : World) (jid : String) :
    (w.recover jid).disk = (w.release ((w.conversationState jid).bind Session.filePath)).disk :=
  rfl

/-- An event without a first message body, or with a message of the bot itself,
ends the listener at once (lines 129-131). -/
theorem handle_ignored (PRINTER_IP : String) (env : Env) (w : World) (m : WAMessage)
    (rest : List WAMessage) (h : m.message = none ∨ m.key.fromMe = true) :
    handle PRINTER_IP env w (m :: rest) = (some (), { world := w, sends := [], jobs := [] }) := by
  cases hm : m.message with
  | none => simp [handle, messagesUpsert, hm, pure_run]
  | some body =>
    rcases h with h | h
    · rw [hm] at h; exact absurd h (by simp)
    · simp [handle, messagesUpsert, hm, h, pure_run]

theorem replyOnly_conversationState (env : Env) (w : World) (jid : String) (reply : Reply) :
    ∃ next, RecordStep w jid next ∧
      ∀ k, (replyOnly env w jid reply).2.world.conversationState k =
        if k = jid then next else w.conversationState k := by
  rcases Bool.eq_false_or_eq_true (env.sendOk 0) with h0 | h0
  · refine ⟨w.conversationState jid, Or.inl rfl, ?_⟩
    intro k
    rw [replyOnly_ok _ _ _ _ h0]
    by_cases hk : k = jid <;> simp [hk]
  · refine ⟨none, Or.inr (Or.inl rfl), ?_⟩
    intro k
    rw [replyOnly_rejected _ _ _ _ h0]
    simp

/-- One run of the listener changes the map at most at the key of the sender,
and there only in one of the ways of `RecordStep`. -/
theorem handle_conversationState (PRINTER_IP : String) (env : Env) (w : World) (m : WAMessage)
    (rest : List WAMessage) :
    ∃ next, RecordStep w m.key.remoteJid next ∧
      ∀ k, (handle PRINTER_IP env w (m :: rest)).2.world.conversationState k =
        if k = m.key.remoteJid then next else w.conversationState k := by
  have same : ∀ w' : World, w' = w → ∃ next, RecordStep w m.key.remoteJid next ∧
      ∀ k, w'.conversationState k = if k = m.key.remoteJid then next else w.conversationState k := by
    intro w' hw'
    subst hw'
    refine ⟨w'.conversationState m.key.remoteJid, Or.inl rfl, ?_⟩
    intro k; by_cases hk : k = m.key.remoteJid <;> simp [hk]
  have e0 := Bool.eq_false_or_eq_true (env.sendOk 0)
  have e1 := Bool.eq_false_or_eq_true (env.sendOk 1)
  cases hm : m.message with
  | none =>
    rw [handle_ignored PRINTER_IP env w m rest (Or.inl hm)]
    exact same w rfl
  | some body =>
    cases hme : m.key.fromMe with
    | true =>
      rw [handle_ignored PRINTER_IP env w m rest (Or.inr hme)]
      exact same w rfl
    | false =>
      by_cases hw : ((w.conversationState m.key.remoteJid).getD
          { status := .awaiting_welcome }).status = .awaiting_welcome ∨ textContent body ∈ greetings
      · rw [handle_welcome PRINTER_IP env w m rest body hm hme hw]
        rcases e0 with h0 | h0
        · exact ⟨some { status := .awaiting_file }, Or.inr (Or.inr (Or.inl rfl)),
            fun k => by simp [h0]⟩
        · exact ⟨none, Or.inr (Or.inl rfl), fun k => by simp [h0]⟩
      · have hg : textContent body ∉ greetings := fun h => hw (Or.inr h)
        cases hs : w.conversationState m.key.remoteJid with
        | none => rw [hs] at hw; exact absurd (Or.inl rfl) hw
        | some s =>
          have hnw : s.status ≠ .awaiting_welcome := by
            intro h; apply hw; left; rw [hs]; exact h
          cases hst : s.status with
          | awaiting_welcome => exact absurd hst hnw
          | awaiting_file =>
            by_cases hkind : messageType body ∈ supportedMessages.map some
            · rw [handle_file_upload PRINTER_IP env w m rest body s hm hme hs hst hg hkind]
              have failed : ∃ next, RecordStep w m.key.remoteJid next ∧
                  ∀ k, (w.recover m.key.remoteJid).conversationState k =
                    if k = m.key.remoteJid then next else w.conversationState k :=
                ⟨none, Or.inr (Or.inl rfl), fun k => by simp⟩
              cases hd : env.download with
              | none => simpa using failed
              | some buffer =>
                cases hn : uploadFileName m (messageContent body) with
                | none => simpa using failed
                | some fileName =>
                  rcases Bool.eq_false_or_eq_true env.writeOk with hwr | hwr
                  · rcases e0 with h0 | h0
                    · refine ⟨_, Or.inr (Or.inr (Or.inr (Or.inl ⟨s, fileName, hs, hst, rfl⟩))), ?_⟩
                      intro k; simp [hwr, h0]
                    · refine ⟨none, Or.inr (Or.inl rfl), ?_⟩
                      intro k; by_cases hk : k = m.key.remoteJid <;> simp [hk, hwr, h0]
                  · simpa [hwr] using failed
            · rw [handle_file_invalid PRINTER_IP env w m rest body s hm hme hs hst hg hkind]
              exact replyOnly_conversationState env w _ _
          | awaiting_color_choice =>
            by_cases hkind : isTextMessage body
            · by_cases h12 : trim (textContent body) = "1" ∨ trim (textContent body) = "2"
              · rw [handle_color_choice PRINTER_IP env w m rest body s hm hme hs hst hg hkind h12]
                rcases e0 with h0 | h0
                · refine ⟨_, Or.inr (Or.inr (Or.inr (Or.inr ⟨s,
                    if trim (textContent body) = "1" then .mono else .color, hs, hst, rfl⟩))), ?_⟩
                  intro k; simp [h0]
                · refine ⟨none, Or.inr (Or.inl rfl), ?_⟩
                  intro k; by_cases hk : k = m.key.remoteJid <;> simp [hk, h0]
              · rw [handle_color_invalid PRINTER_IP env w m rest body s hm hme hs hst hg hkind
                  (fun h => h12 (Or.inl h)) (fun h => h12 (Or.inr h))]
                exact replyOnly_conversationState env w _ _
            · rw [handle_color_nontext PRINTER_IP env w m rest body s hm hme hs hst hg hkind]
              exact replyOnly_conversationState env w _ _
          | awaiting_copies_number =>
            by_cases hkind : isTextMessage body
            · by_cases hbad : (parseInt (textContent body)).isNaN = true ∨
                  (parseInt (textContent body)).leZero = true
              · rw [handle_copies_reject PRINTER_IP env w m rest body s hm hme hs hst hg hkind
                  hbad]
                exact replyOnly_conversationState env w _ _
              · have hnan : (parseInt (textContent body)).isNaN = false := by
                  cases h : (parseInt (textContent body)).isNaN
                  · rfl
                  · exact absurd (Or.inl h) hbad
                have hpos : (parseInt (textContent body)).leZero = false := by
                  cases h : (parseInt (textContent body)).leZero
                  · rfl
                  · exact absurd (Or.inr h) hbad
                rw [handle_copies_accept PRINTER_IP env w m rest body s hm hme hs hst hkind
                  hnan hpos]
                refine ⟨none, Or.inr (Or.inl rfl), ?_⟩
                intro k
                by_cases hk : k = m.key.remoteJid <;> simp only [] <;> split_ifs <;> simp [hk]
            · rw [handle_copies_nontext PRINTER_IP env w m rest body s hm hme hs hst hg hkind]
              exact replyOnly_conversationState env w _ _

/-- C15. Release idempotence: the file-release step
`if (filePath && fs.existsSync(filePath)) fs.unlinkSync(filePath)` never throws;
on a path that does not exist (already deleted, or never created) it leaves the
world as it is, without calling `unlinkSync`; and doing it twice leaves the
same world, hence the same files on disk, as doing it once. -/
theorem release_idempotent (w : World) (filePath : Option String) (r : Run) :
    (releaseFile filePath r).1 = some () ∧
    ((releaseFile filePath >>= fun _ => releaseFile filePath) r).1 = some () ∧
    (∀ p, existsSync w p = false → w.release (some p) = w) ∧
    (w.release none = w) ∧
    (w.release filePath).release filePath = w.release filePath ∧
    ((w.release filePath).release filePath).disk = (w.release filePath).disk := by
  have hidem : (w.release filePath).release filePath = w.release filePath := by
    cases filePath with
    | none => rfl
    | some p =>
      have h := existsSync_release_self w p
      generalize w.release (some p) = w1 at h ⊢
      simp [World.release, h]
  refine ⟨rfl, rfl, ?_, rfl, hidem, by rw [hidem]⟩
  intro p hp
  simp [World.release, hp]

theorem release_idempotent_witness :
    worldCopies.release (some "impressoes_recebidas/nunca.pdf") = worldCopies ∧
    existsSync ((worldCopies.release (some "impressoes_recebidas/doc.pdf")).release
      (some "impressoes_recebidas/doc.pdf")) "impressoes_recebidas/doc.pdf" = false :=
  have h := release_idempotent worldCopies (some "impressoes_recebidas/doc.pdf")
    { world := worldCopies, sends := [], jobs := [] }
  ⟨h.2.2.1 "impressoes_recebidas/nunca.pdf" (by decide),
    by rw [h.2.2.2.2.1]; exact existsSync_release_self _ _⟩

/-- C16. Greeting override leaves files alone: when the record `s` of the sender
has a `filePath` `p` whose file exists and the message is a greeting whose
welcome reply is delivered, the files on disk are the same after the run, so the
file `p` still exists, while the new record of the sender,
`{ status: 'awaiting_file' }`, has no `filePath`: the listener no longer
refers to the file. -/
theorem greeting_keeps_files (PRINTER_IP : String) (env : Env) (w : World) (m : WAMessage)
    (rest : List WAMessage) (body : List Field) (s : Session) (p : String)
    (hbody : m.message = some body) (hme : m.key.fromMe = false)
    (_hs : w.conversationState m.key.remoteJid = some s)
    (_hp : s.filePath = some p) (hex : existsSync w p = true)
    (hgreet : textContent body ∈ greetings) (h0 : env.sendOk 0 = true) :
    (handle PRINTER_IP env w (m :: rest)).2.world.disk = w.disk ∧
    existsSync (handle PRINTER_IP env w (m :: rest)).2.world p = true ∧
    (handle PRINTER_IP env w (m :: rest)).2.world.conversationState m.key.remoteJid =
      some { status := .awaiting_file, filePath := none, fileName := none,
             colorMode := none, copies := none } := by
  rw [handle_welcome PRINTER_IP env w m rest body hbody hme (Or.inr hgreet)]
  simp [h0, hex]

theorem greeting_keeps_files_witness :
    (handle "192.168.1.55" envFine worldCopies [textMessage "olá"]).2.world.disk =
      worldCopies.disk ∧
    existsSync (handle "192.168.1.55" envFine worldCopies [textMessage "olá"]).2.world
      "impressoes_recebidas/doc.pdf" = true ∧
    (handle "192.168.1.55" envFine worldCopies
        [textMessage "olá"]).2.world.conversationState exampleJid =
      some { status := .awaiting_file, filePath := none, fileName := none,
             colorMode := none, copies := none } :=
  greeting_keeps_files "192.168.1.55" envFine worldCopies (textMessage "olá") []
    [.conversation "olá"] sessionCopies "impressoes_recebidas/doc.pdf" rfl rfl rfl rfl
    (by decide) (by decide) rfl

/-- C17. No retry and guarded submission: a call of `printDocument` never
throws, records at most one call of the printing connector, and none at all
(returning `false`) when `PRINTER_IP` still is the placeholder or when no file
exists at `filePath`; it leaves the map and the disk as they are and sends
nothing. -/
theorem print_guarded (PRINTER_IP : String) (env : Env) (filePath : Option String)
    (copies : Option JSNumber) (colorMode : Option ColorMode) (r : Run) :
    (∃ b, (printDocument PRINTER_IP env filePath copies colorMode r).1 = some b) ∧
    (printDocument PRINTER_IP env filePath copies colorMode r).2.jobs =
      r.jobs ++ printCalls PRINTER_IP filePath copies colorMode r.world ∧
    (printCalls PRINTER_IP filePath copies colorMode r.world).length ≤ 1 ∧
    (PRINTER_IP = PRINTER_IP_PLACEHOLDER ∨ (∀ p, filePath = some p → existsSync r.world p = false) →
      (printDocument PRINTER_IP env filePath copies colorMode r).2.jobs = r.jobs ∧
      (printDocument PRINTER_IP env filePath copies colorMode r).1 = some false) ∧
    (printDocument PRINTER_IP env filePath copies colorMode r).2.world = r.world ∧
    (printDocument PRINTER_IP env filePath copies colorMode r).2.sends = r.sends := by
  rw [printDocument_run]
  refine ⟨⟨_, rfl⟩, rfl, ?_, ?_, rfl, rfl⟩
  · by_cases hip : PRINTER_IP = PRINTER_IP_PLACEHOLDER
    · simp [printCalls, hip]
    · cases filePath with
      | none => simp [printCalls, hip]
      | some p => by_cases hex : existsSync r.world p = true <;> simp [printCalls, hip, hex]
  · intro h
    rcases h with h | h
    · simp [printCalls, printResult, h]
    · cases filePath with
      | none => simp [printCalls, printResult]
      | some p => simp [printCalls, printResult, h p rfl]

theorem print_guarded_witness :
    (printDocument PRINTER_IP_PLACEHOLDER envFine (some "impressoes_recebidas/doc.pdf")
      (some (.finite 3)) (some .color) { world := worldCopies, sends := [], jobs := [] }).2.jobs
      = [] ∧
    (printDocument "192.168.1.55" envFine (some "impressoes_recebidas/doc.pdf")
      (some (.finite 3)) (some .color) { world := worldEmpty, sends := [], jobs := [] }).1
      = some false :=
  ⟨((print_guarded PRINTER_IP_PLACEHOLDER envFine (some "impressoes_recebidas/doc.pdf")
      (some (.finite 3)) (some .color)
      { world := worldCopies, sends := [], jobs := [] }).2.2.2.1 (Or.inl rfl)).1,
   ((print_guarded "192.168.1.55" envFine (some "impressoes_recebidas/doc.pdf")
      (some (.finite 3)) (some .color)
      { world := worldEmpty, sends := [], jobs := [] }).2.2.2.1
        (Or.inr (fun p hp => by cases hp; decide))).2⟩

/-- C19. Session isolation: one run of the listener on a message of the sender
`A` leaves the record of every other conversation id `B` (or its absence) as it
was, whatever the outside answers: on the normal paths and in the `catch` block
alike. -/
theorem session_isolation (PRINTER_IP : String) (env : Env) (w : World) (m : WAMessage)
    (rest : List WAMessage) (B : String) (hB : B ≠ m.key.remoteJid) :
    (handle PRINTER_IP env w (m :: rest)).2.world.conversationState B =
      w.conversationState B := by
  obtain ⟨next, _, hk⟩ := handle_conversationState PRINTER_IP env w m rest
  rw [hk B, if_neg hB]

theorem session_isolation_witness :
    (handle "192.168.1.55" envTransportDown worldCopies
        [textFrom otherJid "oi"]).2.world.conversationState exampleJid =
      worldCopies.conversationState exampleJid :=
  session_isolation "192.168.1.55" envTransportDown worldCopies (textFrom otherJid "oi") []
    exampleJid (by decide)

/-- C20. Own and empty messages are ignored: when the first message of the event
has no body or is marked `fromMe`, the listener returns at once: it sends no
reply, calls the printing connector not at all, and leaves the map and the
disk as they are, whatever record the sender has. -/
theorem own_and_empty_ignored (PRINTER_IP : String) (env : Env) (w : World) (m : WAMessage)
    (rest : List WAMessage) (h : m.message = none ∨ m.key.fromMe = true) :
    (handle PRINTER_IP env w (m :: rest)).1 = some () ∧
    (handle PRINTER_IP env w (m :: rest)).2.sends = [] ∧
    (handle PRINTER_IP env w (m :: rest)).2.jobs = [] ∧
    (handle PRINTER_IP env w (m :: rest)).2.world = w := by
  rw [handle_ignored PRINTER_IP env w m rest h]
  exact ⟨rfl, rfl, rfl, rfl⟩

theorem own_and_empty_ignored_witness :
    (handle "192.168.1.55" envFine worldCopies
      [{ key := { remoteJid := exampleJid, fromMe := true, id := "3EB0C1" },
         message := some [.conversation "3"] }]).2.sends = [] ∧
    (handle "192.168.1.55" envFine worldCopies
      [{ key := { remoteJid := exampleJid, fromMe := true, id := "3EB0C1" },
         message := some [.conversation "3"] }]).2.world = worldCopies ∧
    (handle "192.168.1.55" envFine worldCopies
      [{ key := { remoteJid := exampleJid, fromMe := false, id := "3EB0C2" },
         message := none }]).2.world = worldCopies :=
  ⟨(own_and_empty_ignored "192.168.1.55" envFine worldCopies
      { key := { remoteJid := exampleJid, fromMe := true, id := "3EB0C1" },
        message := some [.conversation "3"] } [] (Or.inr rfl)).2.1,
   (own_and_empty_ignored "192.168.1.55" envFine worldCopies
      { key := { remoteJid := exampleJid, fromMe := true, id := "3EB0C1" },
        message := some [.conversation "3"] } [] (Or.inr rfl)).2.2.2,
   (own_and_empty_ignored "192.168.1.55" envFine worldCopies
      { key := { remoteJid := exampleJid, fromMe := false, id := "3EB0C2" },
        message := none } [] (Or.inl rfl)).2.2.2⟩

/-! ## Invariants of the stored records -/

theorem handle_nil (PRINTER_IP : String) (env : Env) (w : World) :
    handle PRINTER_IP env w [] = (none, { world := w, sends := [], jobs := [] }) := rfl

/-- A property of records that holds for the fresh record and is kept by the
upload and by the colour choice is kept by one run of the listener. -/
theorem handle_keeps_records (P : Session → Prop)
    (hfresh : P { status := .awaiting_file })
    (hupload : ∀ s fileName, P s → s.status = .awaiting_file →
      P { s with filePath := some (pathJoin UPLOADS_DIR fileName), fileName := some fileName,
                 status := .awaiting_color_choice })
    (hcolour : ∀ s mode, P s → s.status = .awaiting_color_choice →
      P { s with colorMode := some mode, status := .awaiting_copies_number })
    (PRINTER_IP : String) (env : Env) (w : World) (messages : List WAMessage)
    (hw : ∀ jid s, w.conversationState jid = some s → P s) :
    ∀ jid s, (handle PRINTER_IP env w messages).2.world.conversationState jid = some s → P s := by
  cases messages with
  | nil => rw [handle_nil]; exact hw
  | cons m rest =>
    obtain ⟨next, hstep, hk⟩ := handle_conversationState PRINTER_IP env w m rest
    intro jid s hs
    rw [hk jid] at hs
    by_cases hj : jid = m.key.remoteJid
    · rw [if_pos hj] at hs
      subst hs
      rcases hstep with h | h | h | ⟨s0, fileName, hs0, hst0, h⟩ | ⟨s0, mode, hs0, hst0, h⟩
      · exact hw _ _ h.symm
      · exact absurd h (by simp)
      · simp only [Option.some.injEq] at h; rw [h]; exact hfresh
      · simp only [Option.some.injEq] at h; rw [h]
        exact hupload s0 fileName (hw _ _ hs0) hst0
      · simp only [Option.some.injEq] at h; rw [h]
        exact hcolour s0 mode (hw _ _ hs0) hst0
    · rw [if_neg hj] at hs
      exact hw _ _ hs

/-- Such a property holds for every record of every reachable world. -/
theorem reachable_records (P : Session → Prop)
    (hfresh : P { status := .awaiting_file })
    (hupload : ∀ s fileName, P s → s.status = .awaiting_file →
      P { s with filePath := some (pathJoin UPLOADS_DIR fileName), fileName := some fileName,
                 status := .awaiting_color_choice })
    (hcolour : ∀ s mode, P s → s.status = .awaiting_color_choice →
      P { s with colorMode := some mode, status := .awaiting_copies_number })
    {w : World} (hr : Reachable w) :
    ∀ jid s, w.conversationState jid = some s → P s := by
  induction hr with
  | start w h => intro jid s hs; rw [h jid] at hs; exact absurd hs (by simp)
  | step _ PRINTER_IP env messages ih =>
    exact handle_keeps_records P hfresh hupload hcolour PRINTER_IP env _ messages ih

theorem reachable_runSteps (PRINTER_IP : String) (steps : List (Env × WAMessage)) :
    ∀ w, Reachable w → Reachable (runSteps PRINTER_IP w steps) := by
  induction steps with
  | nil => intro w h; exact h
  | cons step steps ih =>
    intro w h
    exact ih _ (Reachable.step h PRINTER_IP step.1 [step.2])

theorem normalize_ne_nil (path : List Char) : normalize path ≠ [] := by
  unfold normalize
  by_cases h : path = []
  · simp [h]
  · simp only [h, if_false]
    by_cases hres : normalizeString path (!decide (path.head? = some '/')) = []
    · simp only [hres, if_true]
      split_ifs <;> simp
    · simp only [hres, if_false]
      split_ifs <;> simp [hres]

/-- `path.join` never returns the empty string. -/
theorem pathJoin_ne_empty (a b : String) : pathJoin a b ≠ "" := by
  have key : ∀ cs : List Char, (⟨normalize cs⟩ : String) ≠ "" := by
    intro cs h
    have : normalize cs = [] := congrArg String.data h
    exact normalize_ne_nil cs this
  unfold pathJoin
  split_ifs
  · decide
  · exact key _
  · exact key _
  · exact key _

/-- C11, counterexample. After the greeting of a new sender the map is in a
reachable state and holds the record `{ status: 'awaiting_file' }` for that
sender: a stored record without `filePath`. -/
theorem filePath_invariant_counterexample :
    Reachable (runSteps "192.168.1.55" worldEmpty [(envFine, textFrom exampleJid "oi")]) ∧
    (runSteps "192.168.1.55" worldEmpty
        [(envFine, textFrom exampleJid "oi")]).conversationState exampleJid =
      some { status := .awaiting_file, filePath := none, fileName := none,
             colorMode := none, copies := none } :=
  ⟨reachable_runSteps _ _ _ (Reachable.start _ (fun _ => rfl)), by decide⟩

/-- C11, amended. The `filePath` invariant: in every state of the map reachable
by processing any sequence of events, every stored record in
`awaiting_color_choice` or `awaiting_copies_number` has a non-empty `filePath`,
and every stored record in `awaiting_file` has none. -/
theorem filePath_invariant (w : World) (hr : Reachable w) (jid : String) (s : Session)
    (hs : w.conversationState jid = some s) : filePathInvariant s := by
  refine reachable_records filePathInvariant ?_ ?_ ?_ hr jid s hs
  · simp [filePathInvariant]
  · intro s fileName _ _
    simp only [filePathInvariant]
    exact ⟨_, rfl, pathJoin_ne_empty _ _⟩
  · intro s mode h hst
    simp only [filePathInvariant, hst] at h
    simpa only [filePathInvariant] using h

theorem filePath_invariant_witness :
    (runSteps "192.168.1.55" worldEmpty stepsToCopies).conversationState exampleJid =
      some sessionCopies ∧
    filePathInvariant sessionCopies :=
  ⟨by decide,
   filePath_invariant (runSteps "192.168.1.55" worldEmpty stepsToCopies)
    (reachable_runSteps _ _ _ (Reachable.start _ (fun _ => rfl))) exampleJid _ (by decide)⟩

/-- C12. The `colorMode` invariant: in every state of the map reachable by
processing any sequence of events one at a time, a stored record has
`colorMode` set if and only if its status is `awaiting_copies_number`, the
value is then `mono` or `color`, and no stored record has `copies` set. -/
theorem colorMode_invariant (w : World) (hr : Reachable w) (jid : String) (s : Session)
    (hs : w.conversationState jid = some s) : colorModeInvariant s := by
  refine reachable_records colorModeInvariant ?_ ?_ ?_ hr jid s hs
  · simp [colorModeInvariant]
  · intro s fileName h hst
    obtain ⟨h1, _, h3⟩ := h
    have hnone : s.colorMode = none := by
      cases hc : s.colorMode with
      | none => rfl
      | some c =>
        have := h1.1 (by simp [hc])
        rw [hst] at this
        exact absurd this (by simp)
    refine ⟨?_, ?_, h3⟩
    · simp [hnone]
    · intro c hc; simp only [hnone] at hc; exact absurd hc (by simp)
  · intro s mode h _
    obtain ⟨_, _, h3⟩ := h
    refine ⟨by simp, ?_, h3⟩
    intro c _
    cases c
    · exact Or.inl rfl
    · exact Or.inr rfl

theorem colorMode_invariant_witness :
    (runSteps "192.168.1.55" worldEmpty stepsToCopies).conversationState exampleJid =
      some sessionCopies ∧
    colorModeInvariant sessionCopies :=
  ⟨by decide,
   colorMode_invariant (runSteps "192.168.1.55" worldEmpty stepsToCopies)
    (reachable_runSteps _ _ _ (Reachable.start _ (fun _ => rfl))) exampleJid _ (by decide)⟩

/-- C13, the code at the failing input. Two conversations each send a document
named `doc.pdf`. Both records get the same `filePath`; the second upload
overwrites the bytes of the first; and when the second conversation has
printed, the file is deleted although the record of the first conversation
still names it. -/
theorem exclusive_ownership_failing_input :
    exampleJid ≠ otherJid ∧
    Reachable (runSteps "192.168.1.55" worldEmpty twoUploads) ∧
    ((runSteps "192.168.1.55" worldEmpty twoUploads).conversationState exampleJid).bind
        Session.filePath = some "impressoes_recebidas/doc.pdf" ∧
    ((runSteps "192.168.1.55" worldEmpty twoUploads).conversationState otherJid).bind
        Session.filePath = some "impressoes_recebidas/doc.pdf" ∧
    (runSteps "192.168.1.55" worldEmpty (twoUploads.take 3)).disk "impressoes_recebidas/doc.pdf"
      = some [1] ∧
    (runSteps "192.168.1.55" worldEmpty twoUploads).disk "impressoes_recebidas/doc.pdf"
      = some [2] ∧
    (runSteps "192.168.1.55" (runSteps "192.168.1.55" worldEmpty twoUploads)
        otherFinishes).disk "impressoes_recebidas/doc.pdf" = none ∧
    (runSteps "192.168.1.55" (runSteps "192.168.1.55" worldEmpty twoUploads)
        otherFinishes).conversationState exampleJid =
      some { status := .awaiting_color_choice,
             filePath := some "impressoes_recebidas/doc.pdf",
             fileName := some "doc.pdf", colorMode := none, copies := none } :=
  ⟨by decide, reachable_runSteps _ _ _ (Reachable.start _ (fun _ => rfl)),
    by decide, by decide, by decide, by decide, by decide, by decide⟩

/-- C14, the code at the failing input. A document named `../app.js` is written
to `app.js`, outside `impressoes_recebidas`, over the file that was there; the
record keeps that path, and at the end of the conversation the file `app.js`
is deleted. -/
theorem upload_containment_failing_input :
    pathJoin UPLOADS_DIR "../app.js" = "app.js" ∧
    insideUploads "app.js" = false ∧
    worldWithSource.disk "app.js" = some [105, 109, 112, 111, 114, 116] ∧
    (runSteps "192.168.1.55" worldWithSource traversalUpload).disk "app.js" =
      some [37, 80, 68, 70] ∧
    ((runSteps "192.168.1.55" worldWithSource traversalUpload).conversationState
        exampleJid).bind Session.filePath = some "app.js" ∧
    (runSteps "192.168.1.55" (runSteps "192.168.1.55" worldWithSource traversalUpload)
        selfFinishes).disk "app.js" = none := by
  refine ⟨by decide, by decide, by decide, by decide, by decide, by decide⟩

end NorteSulBot
